import Mathlib

/-!
Shallow embedding of src/src/interpreter/bytecode-generator.cc, the single-pass
lowering engine that walks a resolved syntax tree and emits a register-machine
instruction sequence, together with proofs about the lowering rules.

The BytecodeGenerator itself is embedded from the source file.  Collaborators
that the source file consumes but that are not part of the repository (the
instruction sink BytecodeArrayBuilder with its labels and temporary register
scopes, the LoopBuilder from control-flow-builders.h, and small AST helpers
such as Property::GetAssignType) are modelled from the specification, and each
such definition is marked with a comment.
-/

set_option maxHeartbeats 1000000

/-- Runtime category of a literal value, mirroring the dispatch chain in
BytecodeGenerator::VisitLiteral (IsSmi, IsUndefined, IsTrue, IsFalse, IsNull,
IsTheHole, otherwise a heap object referenced through the constant pool). -/
inductive LitValue where
  | smi (n : Int)
  | undef
  | vtrue
  | vfalse
  | vnull
  | theHole
  | other (id : Nat)
deriving DecidableEq

/-- VariableLocation from the resolution pass (storage class of a variable). -/
inductive VarLoc where
  | global
  | unallocated
  | parameter
  | localVar
  | context
  | lookup
deriving DecidableEq

/-- A resolved variable: storage class, class-specific index, and the
IsStaticGlobalObjectProperty flag checked on the global load path. -/
structure Variable where
  location : VarLoc
  index : Nat
  isStaticGlobalObjectProperty : Bool
deriving DecidableEq

/-- Strict or sloppy language mode, from CompilationInfo::language_mode. -/
inductive LanguageMode where
  | sloppy
  | strict
deriving DecidableEq

/-- Operator tokens relevant to VisitBinaryOperation and
VisitCompareOperation.  COMMA, OR and AND are dispatched to UNIMPLEMENTED;
every other token reaches VisitArithmeticExpression or CompareOperation. -/
inductive Token where
  | comma
  | orTok
  | andTok
  | add
  | sub
  | mul
  | div
  | mod
  | eqTok
  | ltTok
  | gtTok
  | eqStrict
deriving DecidableEq

/-- A register operand.  Locals and temporaries share the plain index space
(reg i); parameters live in the separate parameter index space exposed by
BytecodeArrayBuilder::Parameter, where parameter index 0 is the receiver. -/
inductive Reg where
  | reg (i : Nat)
  | param (i : Nat)
deriving DecidableEq

/-- Plain index of a register, as used by the index arithmetic DCHECKs in
VisitCall and VisitCallRuntime (those checks only ever see temporaries,
which are in the plain index space). -/
def regIndex : Reg → Nat
  | Reg.reg i => i
  | Reg.param i => i

/-- Modelled from the spec: the instruction sink primitives named in the
external-interface section.  One constructor per emit primitive that
bytecode-generator.cc invokes on the BytecodeArrayBuilder. -/
inductive Instr where
  | loadLiteralSmi (n : Int)
  | loadLiteralConst (id : Nat)
  | loadUndefined
  | loadTrue
  | loadFalse
  | loadNull
  | loadTheHole
  | loadGlobal (slot : Nat)
  | loadAccumulatorWithRegister (r : Reg)
  | storeAccumulatorInRegister (r : Reg)
  | loadNamedProperty (obj : Reg) (feedback : Nat) (mode : LanguageMode)
  | loadKeyedProperty (obj : Reg) (feedback : Nat) (mode : LanguageMode)
  | storeNamedProperty (obj : Reg) (key : Reg) (feedback : Nat) (mode : LanguageMode)
  | storeKeyedProperty (obj : Reg) (key : Reg) (feedback : Nat) (mode : LanguageMode)
  | binaryOperation (op : Token) (lhs : Reg)
  | compareOperation (op : Token) (lhs : Reg) (mode : LanguageMode)
  | call (callee : Reg) (receiver : Reg) (argCount : Nat)
  | callRuntime (functionId : Nat) (firstArg : Reg) (argCount : Nat)
  | jump (label : Nat)
  | jumpIfTrue (label : Nat)
  | jumpIfFalse (label : Nat)
  | castAccumulatorToBoolean
  | enterBlock
  | leaveBlock
  | ret
deriving DecidableEq

/-- The two disjoint failure classes of the error-handling design:
unimplemented models the UNIMPLEMENTED() unsupported-construct signal,
unreachable models the UNREACHABLE()/DCHECK internal-invariant violation. -/
inductive LowerError where
  | unimplemented
  | unreachable
deriving DecidableEq

/-- One link of the control scope chain: the identity of the iteration
statement it guards together with the break and continue labels of the
LoopBuilder that can satisfy commands against it
(BytecodeGenerator::ControlScopeForIteration). -/
structure CtrlScope where
  stmtId : Nat
  breakLabel : Nat
  continueLabel : Nat
deriving DecidableEq

/-- The mutable state of one lowering pass: the instruction sink contents
(emitted instructions, label bindings, fresh label counter), the temporary
register allocator frontier, and the control scope chain head. -/
structure GenState where
  instrs : List Instr
  labelBinds : List (Nat × Nat)
  nextLabel : Nat
  tempFrontier : Nat
  ctrlScopes : List CtrlScope
deriving DecidableEq

/-- Lookup of the bound position of a label in the sink. -/
def lookupBind (l : Nat) : List (Nat × Nat) → Option Nat
  | [] => none
  | (l2, p) :: rest => if l = l2 then some p else lookupBind l rest

/-- The lowering monad: state threaded through both success and failure, so
that instructions emitted before a fatal UNIMPLEMENTED or UNREACHABLE stop
remain observable (the C++ macros abort the process with the sink already
holding whatever was emitted). -/
def M (α : Type) : Type := GenState → Except LowerError α × GenState

def M.pure {α : Type} (a : α) : M α := fun s => (Except.ok a, s)

def M.bind {α β : Type} (m : M α) (f : α → M β) : M β := fun s =>
  match m s with
  | (Except.ok a, s1) => f a s1
  | (Except.error e, s1) => (Except.error e, s1)

instance : Monad M where
  pure := M.pure
  bind := M.bind

/-- Append one instruction to the sink. -/
def emit (i : Instr) : M Unit := fun s =>
  (Except.ok (), { s with instrs := s.instrs ++ [i] })

/-- Modelled from the spec: create a fresh, unbound label (a BytecodeLabel
declaration in the source obtains its identity from the sink). -/
def newLabel : M Nat := fun s =>
  (Except.ok s.nextLabel, { s with nextLabel := s.nextLabel + 1 })

/-- Modelled from the spec: bind a label at the current end of the emitted
instruction sequence (BytecodeArrayBuilder::Bind). -/
def bindLabel (l : Nat) : M Unit := fun s =>
  (Except.ok (), { s with labelBinds := (l, s.instrs.length) :: s.labelBinds })

/-- Modelled from the spec: TemporaryRegisterScope::NewRegister returns the
next unused index above the allocator frontier, monotonically increasing. -/
def newRegister : M Reg := fun s =>
  (Except.ok (Reg.reg s.tempFrontier), { s with tempFrontier := s.tempFrontier + 1 })

/-- The UNIMPLEMENTED() macro: loud unsupported-construct stop. -/
def UNIMPLEMENTED {α : Type} : M α := fun s =>
  (Except.error LowerError.unimplemented, s)

/-- The UNREACHABLE() macro (also used for failed DCHECK assertions): fatal
internal-invariant violation. -/
def UNREACHABLE {α : Type} : M α := fun s =>
  (Except.error LowerError.unreachable, s)

/-- Modelled from the spec: a TemporaryRegisterScope in scope for the body;
the destructor restores the frontier recorded on entry.  On a fatal stop the
process aborts, so no restoration happens on the error path. -/
def withTempRegisterScope (body : M Unit) : M Unit := fun s =>
  match body s with
  | (Except.ok u, s1) => (Except.ok u, { s1 with tempFrontier := s.tempFrontier })
  | (Except.error e, s1) => (Except.error e, s1)

/-- A ControlScope in scope for the body: the constructor pushes the new
scope as the chain head, the destructor restores the previous head.  On a
fatal stop the process aborts, so no restoration happens on the error path. -/
def withControlScope (c : CtrlScope) (body : M Unit) : M Unit := fun s =>
  match body { s with ctrlScopes := c :: s.ctrlScopes } with
  | (Except.ok u, s1) => (Except.ok u, { s1 with ctrlScopes := s.ctrlScopes })
  | (Except.error e, s1) => (Except.error e, s1)

/-- Read the current control scope chain (generator->control_scope()). -/
def getControlScopes : M (List CtrlScope) := fun s => (Except.ok s.ctrlScopes, s)

/-- Modelled from the spec: one LoopBuilder instance per loop node, holding a
break-target label and a continue-target label (control-flow-builders.h is
not under src). -/
structure LoopBuilder where
  breakLabel : Nat
  continueLabel : Nat
deriving DecidableEq

/-- Modelled from the spec: constructing a LoopBuilder allocates its two
labels from the sink. -/
def MakeLoopBuilder : M LoopBuilder := fun s =>
  (Except.ok { breakLabel := s.nextLabel, continueLabel := s.nextLabel + 1 },
   { s with nextLabel := s.nextLabel + 2 })

/-- Modelled from the spec: LoopBuilder::Break emits a jump to the break
label, which need not be bound yet. -/
def LoopBuilder.Break (lb : LoopBuilder) : M Unit :=
  emit (Instr.jump lb.breakLabel)

/-- Modelled from the spec: LoopBuilder::Continue emits a jump to the
continue label, which need not be bound yet. -/
def LoopBuilder.Continue (lb : LoopBuilder) : M Unit :=
  emit (Instr.jump lb.continueLabel)

/-- Modelled from the spec: LoopBuilder::SetBreakTarget resolves the break
label to the position of an already-bound target label; a never-bound target
is a builder contract violation. -/
def LoopBuilder.SetBreakTarget (lb : LoopBuilder) (target : Nat) : M Unit := fun s =>
  match lookupBind target s.labelBinds with
  | some p => (Except.ok (), { s with labelBinds := (lb.breakLabel, p) :: s.labelBinds })
  | none => (Except.error LowerError.unreachable, s)

/-- Modelled from the spec: LoopBuilder::SetContinueTarget resolves the
continue label to the position of an already-bound target label. -/
def LoopBuilder.SetContinueTarget (lb : LoopBuilder) (target : Nat) : M Unit := fun s =>
  match lookupBind target s.labelBinds with
  | some p => (Except.ok (), { s with labelBinds := (lb.continueLabel, p) :: s.labelBinds })
  | none => (Except.error LowerError.unreachable, s)

/-- The break and continue commands of ControlScope::PerformCommand. -/
inductive Command where
  | cmdBreak
  | cmdContinue
deriving DecidableEq

/-- Label of a control scope a given command jumps to. -/
def commandLabel (cmd : Command) (c : CtrlScope) : Nat :=
  match cmd with
  | Command.cmdBreak => c.breakLabel
  | Command.cmdContinue => c.continueLabel

/-- BytecodeGenerator::ControlScopeForIteration::Execute: an identity test of
the statement against the construct this scope guards; on a match the
command is delegated to the loop builder labels recorded in the scope. -/
def CtrlScope.Execute (c : CtrlScope) (cmd : Command) (target : Nat) : M Bool :=
  if target = c.stmtId then
    match cmd with
    | Command.cmdBreak => M.bind (emit (Instr.jump c.breakLabel)) (fun _ => M.pure true)
    | Command.cmdContinue => M.bind (emit (Instr.jump c.continueLabel)) (fun _ => M.pure true)
  else M.pure false

/-- BytecodeGenerator::ControlScope::PerformCommand: walk the chain from the
head outward; the first scope whose Execute accepts handles the command; an
exhausted chain is the UNREACHABLE fatal internal error. -/
def PerformCommand (cmd : Command) (target : Nat) : List CtrlScope → M Unit
  | [] => UNREACHABLE
  | c :: rest =>
      M.bind (CtrlScope.Execute c cmd target) (fun handled =>
        if handled then M.pure () else PerformCommand cmd target rest)

/-- The call shapes of Call::GetCallType.  The source computes the shape from
the callee expression in ast code that is not under src, so the shape is
carried on the call node as resolution output. -/
inductive CallType where
  | propertyCall
  | globalCall
  | lookupSlotCall
  | superCall
  | possiblyEvalCall
  | otherCall
deriving DecidableEq

/-- Expression node kinds whose visitors consist solely of UNIMPLEMENTED()
in the source (their operands are never inspected). -/
inductive UnsupExpr where
  | functionLiteral
  | classLiteral
  | nativeFunctionLiteral
  | conditional
  | regExpLiteral
  | objectLiteral
  | arrayLiteral
  | yieldExpr
  | throwExpr
  | unaryOperation
  | countOperation
  | callNew
  | thisFunction
  | superCallReference
  | superPropertyReference
deriving DecidableEq

/-- Statement and declaration node kinds whose visitors consist solely of
UNIMPLEMENTED() in the source. -/
inductive UnsupStmt where
  | functionDeclaration
  | importDeclaration
  | exportDeclaration
  | withStatement
  | switchStatement
  | caseClause
  | forInStatement
  | forOfStatement
  | tryCatchStatement
  | tryFinallyStatement
  | debuggerStatement
deriving DecidableEq

mutual
/-- The resolved syntax tree for one function body.  Iteration statements
carry a numeric identity standing for the node pointer compared by the
control scope chain; feedback slots are carried as resolved slot ids. -/
inductive Ast where
  | literal (v : LitValue)
  | varProxy (v : Variable)
  | property (obj : Ast) (superAccess : Bool) (key : PropKeyNode) (slot : Nat)
  | assignment (isCompound : Bool) (target : Ast) (value : Ast) (slot : Nat)
  | call (callType : CallType) (callee : Ast) (args : AstList)
  | callRuntime (isJsruntime : Bool) (functionId : Nat) (resultSize : Nat) (args : AstList)
  | binaryOp (op : Token) (lhs : Ast) (rhs : Ast)
  | compareOp (op : Token) (lhs : Ast) (rhs : Ast)
  | spread (e : Ast)
  | emptyParentheses
  | unsupportedExpr (k : UnsupExpr)
  | block (hasScope : Bool) (contextLocalCount : Nat) (decls : AstList) (stmts : AstList)
  | varDecl (v : Variable)
  | exprStmt (e : Ast)
  | emptyStmt
  | ifStmt (cond : Ast) (thenS : Ast) (elseS : OptAst)
  | sloppyBlockFunction (inner : Ast)
  | continueStmt (target : Nat)
  | breakStmt (target : Nat)
  | returnStmt (e : Ast)
  | doWhile (id : Nat) (body : Ast) (cond : Ast)
  | whileStmt (id : Nat) (cond : Ast) (body : Ast)
  | forStmt (id : Nat) (ini : OptAst) (cond : OptAst) (nxt : OptAst) (body : Ast)
  | unsupportedStmt (k : UnsupStmt)

/-- A list of syntax tree nodes (statement or declaration lists, argument
lists), part of the mutual family so that the visitors recurse structurally. -/
inductive AstList where
  | nilA
  | consA (a : Ast) (l : AstList)

/-- An optional syntax tree node (else branch, for-statement components). -/
inductive OptAst where
  | noneA
  | someA (a : Ast)

/-- The key of a property access: a property-name literal key or a general
key expression (Property::key with literal IsPropertyName dispatch resolved
in the constructor, as ast.h is not under src). -/
inductive PropKeyNode where
  | nameKey (id : Nat)
  | exprKey (e : Ast)
end

/-- Length of an AstList. -/
def lengthA : AstList → Nat
  | AstList.nilA => 0
  | AstList.consA _ l => lengthA l + 1

/-- Modelled from the spec: Expression::IsValidReferenceExpression, the
DCHECK precondition of VisitAssignment (a variable proxy or a property). -/
def isValidReferenceExpression : Ast → Bool
  | Ast.varProxy _ => true
  | Ast.property _ _ _ _ => true
  | _ => false

/-- Per-compilation context of one lowering pass: CompilationInfo and Scope
data that MakeBytecode and the lowering rules consume. -/
structure FnContext where
  numParametersIncludingThis : Nat
  numStackSlots : Nat
  isFunctionScope : Bool
  languageMode : LanguageMode
  feedbackIndex : Nat → Nat
  functionVar : Option Variable
  declarations : AstList
  body : AstList

/-- BytecodeGenerator::VisitLiteral: dedicated immediate-load instructions
for smis, undefined, true, false, null and the hole; any other value is a
constant pool load. -/
def VisitLiteralValue (v : LitValue) : M Unit :=
  match v with
  | LitValue.smi n => emit (Instr.loadLiteralSmi n)
  | LitValue.undef => emit Instr.loadUndefined
  | LitValue.vtrue => emit Instr.loadTrue
  | LitValue.vfalse => emit Instr.loadFalse
  | LitValue.vnull => emit Instr.loadNull
  | LitValue.theHole => emit Instr.loadTheHole
  | LitValue.other id => emit (Instr.loadLiteralConst id)

/-- BytecodeGenerator::VisitVariableLoad: dispatch on storage class; local
loads read the local register directly, parameter loads read the parameter
register at index + 1 because parameter index 0 is the receiver, global
loads check IsStaticGlobalObjectProperty and go through LoadGlobal;
unallocated, context and lookup storage are unimplemented. -/
def VisitVariableLoad (v : Variable) : M Unit :=
  match v.location with
  | VarLoc.localVar => emit (Instr.loadAccumulatorWithRegister (Reg.reg v.index))
  | VarLoc.parameter => emit (Instr.loadAccumulatorWithRegister (Reg.param (v.index + 1)))
  | VarLoc.global =>
      if v.isStaticGlobalObjectProperty then emit (Instr.loadGlobal v.index)
      else UNREACHABLE
  | VarLoc.unallocated => UNIMPLEMENTED
  | VarLoc.context => UNIMPLEMENTED
  | VarLoc.lookup => UNIMPLEMENTED

/-- BytecodeGenerator::VisitVariableDeclaration: parameter and local storage
is already reserved by resolution (no instruction); global, unallocated,
context and lookup storage are unimplemented. -/
def VisitVariableDeclaration (v : Variable) : M Unit :=
  match v.location with
  | VarLoc.global => UNIMPLEMENTED
  | VarLoc.unallocated => UNIMPLEMENTED
  | VarLoc.parameter => M.pure ()
  | VarLoc.localVar => M.pure ()
  | VarLoc.context => UNIMPLEMENTED
  | VarLoc.lookup => UNIMPLEMENTED

mutual
/-- The node lowering dispatcher AstVisitor::Visit: one arm per node kind,
each arm transcribing the corresponding BytecodeGenerator visitor from the
source (named in the comments). -/
def Visit (info : FnContext) : Ast → M Unit
  -- VisitLiteral
  | Ast.literal v => VisitLiteralValue v
  -- VisitVariableProxy delegates to VisitVariableLoad
  | Ast.varProxy v => VisitVariableLoad v
  -- VisitProperty: materialize the object in a fresh register inside a
  -- temporary register scope, then delegate to VisitPropertyLoad
  | Ast.property obj superAccess key slot =>
      withTempRegisterScope (do
        let objReg ← newRegister
        Visit info obj
        emit (Instr.storeAccumulatorInRegister objReg)
        VisitPropertyLoad info objReg superAccess key slot)
  -- VisitAssignment: DCHECK(IsValidReferenceExpression), then the two
  -- switches on Property::GetAssignType merged per target shape, with the
  -- compound check between LHS evaluation and the value
  | Ast.assignment isCompound target value slot =>
      if isValidReferenceExpression target then
        withTempRegisterScope (do
          match target with
          | Ast.property obj superAccess key _pslot =>
              (match superAccess, key with
               -- NAMED_PROPERTY
               | false, PropKeyNode.nameKey name => do
                   let object ← newRegister
                   let keyReg ← newRegister
                   Visit info obj
                   emit (Instr.storeAccumulatorInRegister object)
                   emit (Instr.loadLiteralConst name)
                   emit (Instr.storeAccumulatorInRegister keyReg)
                   (if isCompound then UNIMPLEMENTED else Visit info value)
                   emit (Instr.storeNamedProperty object keyReg
                           (info.feedbackIndex slot) info.languageMode)
               -- KEYED_PROPERTY
               | false, PropKeyNode.exprKey kexpr => do
                   let object ← newRegister
                   let keyReg ← newRegister
                   Visit info obj
                   emit (Instr.storeAccumulatorInRegister object)
                   Visit info kexpr
                   emit (Instr.storeAccumulatorInRegister keyReg)
                   (if isCompound then UNIMPLEMENTED else Visit info value)
                   emit (Instr.storeKeyedProperty object keyReg
                           (info.feedbackIndex slot) info.languageMode)
               -- NAMED_SUPER_PROPERTY and KEYED_SUPER_PROPERTY
               | true, _ => UNIMPLEMENTED)
          -- VARIABLE: nothing to do for the LHS; after the value, the store
          -- requires a local variable (DCHECK location == LOCAL)
          | Ast.varProxy v => do
              (if isCompound then UNIMPLEMENTED else Visit info value)
              (if v.location = VarLoc.localVar then
                 emit (Instr.storeAccumulatorInRegister (Reg.reg v.index))
               else UNREACHABLE)
          | _ => UNREACHABLE)
      else UNREACHABLE
  -- VisitCall: allocate callee then receiver registers, dispatch on the
  -- call shape, evaluate arguments into sequential registers with the
  -- index arithmetic DCHECK, then emit the call
  | Ast.call callType callee args =>
      withTempRegisterScope (do
        let calleeReg ← newRegister
        let receiverReg ← newRegister
        (match callType with
         | CallType.propertyCall =>
             (match callee with
              | Ast.property obj superAccess key pslot =>
                  if superAccess then UNIMPLEMENTED
                  else do
                    Visit info obj
                    emit (Instr.storeAccumulatorInRegister receiverReg)
                    VisitPropertyLoad info receiverReg superAccess key pslot
                    emit (Instr.storeAccumulatorInRegister calleeReg)
              | _ => UNREACHABLE)
         | CallType.globalCall =>
             (match callee with
              | Ast.varProxy v => do
                  emit Instr.loadUndefined
                  emit (Instr.storeAccumulatorInRegister receiverReg)
                  VisitVariableLoad v
                  emit (Instr.storeAccumulatorInRegister calleeReg)
              | _ => UNREACHABLE)
         | CallType.lookupSlotCall => UNIMPLEMENTED
         | CallType.superCall => UNIMPLEMENTED
         | CallType.possiblyEvalCall => UNIMPLEMENTED
         | CallType.otherCall => UNIMPLEMENTED)
        VisitCallArgs info (regIndex receiverReg) args 0
        emit (Instr.call calleeReg receiverReg (lengthA args)))
  -- VisitCallRuntime: js runtime functions are unimplemented; otherwise a
  -- first-argument register is always allocated, arguments checked against
  -- it, and DCHECK_LE(result_size, 1) guards the emit
  | Ast.callRuntime isJsruntime functionId resultSize args =>
      if isJsruntime then UNIMPLEMENTED
      else
        withTempRegisterScope (do
          let firstArg ← newRegister
          VisitRuntimeArgs info (regIndex firstArg) args 0
          (if resultSize ≤ 1 then
             emit (Instr.callRuntime functionId firstArg (lengthA args))
           else UNREACHABLE))
  -- VisitBinaryOperation: COMMA, OR, AND are unimplemented; the default
  -- case is VisitArithmeticExpression
  | Ast.binaryOp op lhs rhs =>
      (match op with
       | Token.comma => UNIMPLEMENTED
       | Token.orTok => UNIMPLEMENTED
       | Token.andTok => UNIMPLEMENTED
       | _ =>
           withTempRegisterScope (do
             let temporary ← newRegister
             Visit info lhs
             emit (Instr.storeAccumulatorInRegister temporary)
             Visit info rhs
             emit (Instr.binaryOperation op temporary)))
  -- VisitCompareOperation
  | Ast.compareOp op lhs rhs =>
      withTempRegisterScope (do
        let temporary ← newRegister
        Visit info lhs
        emit (Instr.storeAccumulatorInRegister temporary)
        Visit info rhs
        emit (Instr.compareOperation op temporary info.languageMode))
  -- VisitSpread
  | Ast.spread _ => UNREACHABLE
  -- VisitEmptyParentheses
  | Ast.emptyParentheses => UNREACHABLE
  -- the visitors that are a single UNIMPLEMENTED() on expressions
  | Ast.unsupportedExpr _ => UNIMPLEMENTED
  -- VisitBlock: EnterBlock, then statements (with declarations when the
  -- block has a scope, unimplemented when it has context locals), LeaveBlock
  | Ast.block hasScope contextLocalCount decls stmts => do
      emit Instr.enterBlock
      (if hasScope then
         (if contextLocalCount > 0 then UNIMPLEMENTED
          else do
            VisitStatements info decls
            VisitStatements info stmts)
       else VisitStatements info stmts)
      emit Instr.leaveBlock
  -- VisitVariableDeclaration
  | Ast.varDecl v => VisitVariableDeclaration v
  -- VisitExpressionStatement
  | Ast.exprStmt e => Visit info e
  -- VisitEmptyStatement
  | Ast.emptyStmt => M.pure ()
  -- VisitIfStatement
  | Ast.ifStmt cond thenS elseS => do
      let elseLabel ← newLabel
      let endLabel ← newLabel
      Visit info cond
      emit Instr.castAccumulatorToBoolean
      emit (Instr.jumpIfFalse elseLabel)
      Visit info thenS
      (match elseS with
       | OptAst.someA e => do
           emit (Instr.jump endLabel)
           bindLabel elseLabel
           Visit info e
       | OptAst.noneA => bindLabel elseLabel)
      bindLabel endLabel
  -- VisitSloppyBlockFunctionStatement
  | Ast.sloppyBlockFunction inner => Visit info inner
  -- VisitContinueStatement
  | Ast.continueStmt target =>
      M.bind getControlScopes (fun scopes => PerformCommand Command.cmdContinue target scopes)
  -- VisitBreakStatement
  | Ast.breakStmt target =>
      M.bind getControlScopes (fun scopes => PerformCommand Command.cmdBreak target scopes)
  -- VisitReturnStatement
  | Ast.returnStmt e => do
      Visit info e
      emit Instr.ret
  -- VisitDoWhileStatement
  | Ast.doWhile id body cond => do
      let lb ← MakeLoopBuilder
      withControlScope ⟨id, lb.breakLabel, lb.continueLabel⟩ (do
        let bodyLabel ← newLabel
        let conditionLabel ← newLabel
        let doneLabel ← newLabel
        bindLabel bodyLabel
        Visit info body
        bindLabel conditionLabel
        Visit info cond
        emit (Instr.jumpIfTrue bodyLabel)
        bindLabel doneLabel
        LoopBuilder.SetBreakTarget lb doneLabel
        LoopBuilder.SetContinueTarget lb conditionLabel)
  -- VisitWhileStatement
  | Ast.whileStmt id cond body => do
      let lb ← MakeLoopBuilder
      withControlScope ⟨id, lb.breakLabel, lb.continueLabel⟩ (do
        let bodyLabel ← newLabel
        let conditionLabel ← newLabel
        let doneLabel ← newLabel
        emit (Instr.jump conditionLabel)
        bindLabel bodyLabel
        Visit info body
        bindLabel conditionLabel
        Visit info cond
        emit (Instr.jumpIfTrue bodyLabel)
        bindLabel doneLabel
        LoopBuilder.SetBreakTarget lb doneLabel
        LoopBuilder.SetContinueTarget lb conditionLabel)
  -- VisitForStatement
  | Ast.forStmt id ini cond nxt body => do
      let lb ← MakeLoopBuilder
      withControlScope ⟨id, lb.breakLabel, lb.continueLabel⟩ (do
        VisitIfPresent info ini
        let bodyLabel ← newLabel
        let conditionLabel ← newLabel
        let nextLabel ← newLabel
        let doneLabel ← newLabel
        (match cond with
         | OptAst.someA _ => emit (Instr.jump conditionLabel)
         | OptAst.noneA => M.pure ())
        bindLabel bodyLabel
        Visit info body
        bindLabel nextLabel
        VisitIfPresent info nxt
        (match cond with
         | OptAst.someA c => do
             bindLabel conditionLabel
             Visit info c
             emit (Instr.jumpIfTrue bodyLabel)
         | OptAst.noneA => emit (Instr.jump bodyLabel))
        bindLabel doneLabel
        LoopBuilder.SetBreakTarget lb doneLabel
        LoopBuilder.SetContinueTarget lb nextLabel)
  -- the visitors that are a single UNIMPLEMENTED() on statements
  | Ast.unsupportedStmt _ => UNIMPLEMENTED

/-- AstVisitor::VisitStatements / VisitDeclarations: visit each node of the
list in order. -/
def VisitStatements (info : FnContext) : AstList → M Unit
  | AstList.nilA => M.pure ()
  | AstList.consA a rest =>
      M.bind (Visit info a) (fun _ => VisitStatements info rest)

/-- Lowering of an optional component (the init, cond and next slots of a
for statement): visit it when present, nothing otherwise. -/
def VisitIfPresent (info : FnContext) : OptAst → M Unit
  | OptAst.someA a => Visit info a
  | OptAst.noneA => M.pure ()

/-- BytecodeGenerator::VisitPropertyLoad, with the object already held in a
register: named access loads the name literal and emits a named load; keyed
access lowers the key and emits a keyed load; super access is
unimplemented.  (The VARIABLE case of the source switch is unreachable
because the callers only pass property nodes.) -/
def VisitPropertyLoad (info : FnContext) (obj : Reg) (superAccess : Bool)
    (key : PropKeyNode) (slot : Nat) : M Unit :=
  match superAccess, key with
  | false, PropKeyNode.nameKey name => do
      emit (Instr.loadLiteralConst name)
      emit (Instr.loadNamedProperty obj (info.feedbackIndex slot) info.languageMode)
  | false, PropKeyNode.exprKey k => do
      Visit info k
      emit (Instr.loadKeyedProperty obj (info.feedbackIndex slot) info.languageMode)
  | true, _ => UNIMPLEMENTED

/-- The argument loop of VisitCall: evaluate each argument, allocate its
register, check the index arithmetic against the receiver register
(DCHECK(arg.index() - i == receiver.index() + 1)) and store. -/
def VisitCallArgs (info : FnContext) (receiverIdx : Nat) (args : AstList) (i : Nat) : M Unit :=
  match args with
  | AstList.nilA => M.pure ()
  | AstList.consA a rest => do
      Visit info a
      let arg ← newRegister
      (if regIndex arg - i = receiverIdx + 1 then do
         emit (Instr.storeAccumulatorInRegister arg)
         VisitCallArgs info receiverIdx rest (i + 1)
       else UNREACHABLE)

/-- The argument loop of VisitCallRuntime: the first argument reuses the
pre-allocated first-argument register, later arguments get fresh registers;
the index arithmetic is checked against the first-argument register
(DCHECK_EQ(arg.index() - i, first_arg.index())). -/
def VisitRuntimeArgs (info : FnContext) (firstArgIdx : Nat) (args : AstList) (i : Nat) : M Unit :=
  match args with
  | AstList.nilA => M.pure ()
  | AstList.consA a rest => do
      let arg ← (if i = 0 then M.pure (Reg.reg firstArgIdx) else newRegister)
      Visit info a
      (if regIndex arg - i = firstArgIdx then do
         emit (Instr.storeAccumulatorInRegister arg)
         VisitRuntimeArgs info firstArgIdx rest (i + 1)
       else UNREACHABLE)
end

/-- The initial state of one lowering pass: an empty sink and a temporary
register frontier starting above the function locals (parameters, locals and
temporaries share one index space; locals occupy the low indices). -/
def initialState (info : FnContext) : GenState :=
  { instrs := [], labelBinds := [], nextLabel := 0,
    tempFrontier := info.numStackSlots, ctrlScopes := [] }

/-- The finalized program object of BytecodeArrayBuilder::ToBytecodeArray:
the emitted instruction sequence with the label bindings that resolve its
jump offsets, tagged with the parameter count and the locals count. -/
structure BytecodeArray where
  instructions : List Instr
  labelBinds : List (Nat × Nat)
  parameterCount : Nat
  localsCount : Nat
deriving DecidableEq

/-- BytecodeGenerator::MakeBytecode: check the function scope
(DCHECK(scope()->is_function_scope())), set the parameter count from
num_parameters_including_this and the locals count from num_stack_slots,
visit the implicit function-name declaration when the scope has one, then
the scope declarations, then the body statements, and finalize. -/
def MakeBytecode (info : FnContext) : Except LowerError BytecodeArray :=
  if info.isFunctionScope then
    match (M.bind
            (match info.functionVar with
             | some v => VisitVariableDeclaration v
             | none => M.pure ())
            (fun _ => M.bind (VisitStatements info info.declarations)
              (fun _ => VisitStatements info info.body))) (initialState info) with
    | (Except.ok _, s) =>
        Except.ok { instructions := s.instrs, labelBinds := s.labelBinds,
                    parameterCount := info.numParametersIncludingThis,
                    localsCount := info.numStackSlots }
    | (Except.error e, _) => Except.error e
  else Except.error LowerError.unreachable


/-- Core preservation properties of a lowering step, relative to a label
baseline n: the instruction sink is append-only, the fresh label counter
never decreases, and the binding of every label below the baseline is left
untouched (visitors only bind labels they allocated themselves). -/
def PresC {α : Type} (n : Nat) (m : M α) : Prop :=
  ∀ s, n ≤ s.nextLabel →
    (∃ t, (m s).2.instrs = s.instrs ++ t) ∧
    s.nextLabel ≤ (m s).2.nextLabel ∧
    (∀ l, l < n → lookupBind l (m s).2.labelBinds = lookupBind l s.labelBinds) ∧
    ∀ a, (m s).1 = Except.ok a → (m s).2.ctrlScopes = s.ctrlScopes

/-- Core preservation together with restoration of the temporary register
frontier on every successful run (each visitor closes the temporary
register scopes it opens). -/
def PresL {α : Type} (n : Nat) (m : M α) : Prop :=
  PresC n m ∧ ∀ s, n ≤ s.nextLabel →
    ∀ a, (m s).1 = Except.ok a → (m s).2.tempFrontier = s.tempFrontier

/-- Shape of the argument segment emitted by the VisitCall argument loop:
for each argument position j from i up to n, an evaluation segment followed
by a store into the register at index receiverIdx + 1 + j. -/
inductive ArgSeq (receiverIdx : Nat) : Nat → Nat → List Instr → Prop where
  | done (i : Nat) : ArgSeq receiverIdx i i []
  | step (i n : Nat) (seg rest : List Instr) :
      ArgSeq receiverIdx (i + 1) n rest →
      ArgSeq receiverIdx i n
        (seg ++ Instr.storeAccumulatorInRegister (Reg.reg (receiverIdx + 1 + i)) :: rest)

/-- A concrete function context used by the closed witness and
counterexample statements. -/
def testInfo : FnContext :=
  { numParametersIncludingThis := 1, numStackSlots := 0, isFunctionScope := true,
    languageMode := LanguageMode.sloppy, feedbackIndex := fun i => i,
    functionVar := none, declarations := AstList.nilA,
    body := AstList.consA (Ast.returnStmt (Ast.literal (LitValue.smi 1))) AstList.nilA }

theorem mBind_def {α β : Type} (m : M α) (f : α → M β) : m >>= f = M.bind m f := rfl

theorem mPure_def {α : Type} (a : α) : (pure a : M α) = M.pure a := rfl

theorem presC_pure {α : Type} (n : Nat) (a : α) : PresC n (M.pure a) := by
  intro s _
  exact ⟨⟨[], by simp [M.pure]⟩, le_refl _, fun l _ => rfl, fun a _ => rfl⟩

theorem presL_pure {α : Type} (n : Nat) (a : α) : PresL n (M.pure a) :=
  ⟨presC_pure n a, fun _ _ _ _ => rfl⟩

theorem presC_bind {α β : Type} {n : Nat} {m : M α} {f : α → M β}
    (hm : PresC n m) (hf : ∀ a, PresC n (f a)) : PresC n (M.bind m f) := by
  intro s hs
  obtain ⟨⟨t1, h1⟩, hn1, hb1, hc1⟩ := hm s hs
  rcases hms : m s with ⟨r, s1⟩
  rw [hms] at h1 hn1 hb1 hc1
  cases r with
  | ok a =>
      obtain ⟨⟨t2, h2⟩, hn2, hb2, hc2⟩ := hf a s1 (le_trans hs hn1)
      refine ⟨⟨t1 ++ t2, ?_⟩, ?_, fun l hl => ?_, fun b hb => ?_⟩
      · simp only [M.bind, hms]
        rw [h2, h1, List.append_assoc]
      · simp only [M.bind, hms]
        exact le_trans hn1 hn2
      · simp only [M.bind, hms]
        rw [hb2 l hl, hb1 l hl]
      · simp only [M.bind, hms] at hb ⊢
        rw [hc2 b hb, hc1 a rfl]
  | error e =>
      refine ⟨⟨t1, ?_⟩, ?_, fun l hl => ?_, fun b hb => ?_⟩
      · simp only [M.bind, hms]; exact h1
      · simp only [M.bind, hms]; exact hn1
      · simp only [M.bind, hms]; exact hb1 l hl
      · simp only [M.bind, hms] at hb
        exact absurd hb (by simp)

theorem presL_bind {α β : Type} {n : Nat} {m : M α} {f : α → M β}
    (hm : PresL n m) (hf : ∀ a, PresL n (f a)) : PresL n (M.bind m f) := by
  constructor
  · exact presC_bind hm.1 (fun a => (hf a).1)
  · intro s hs b hok
    have hn1 := (hm.1 s hs).2.1
    rcases hms : m s with ⟨r, s1⟩
    rw [hms] at hn1
    cases r with
    | ok a =>
        have h1 : s1.tempFrontier = s.tempFrontier := by
          have := hm.2 s hs a (by rw [hms])
          rwa [hms] at this
        simp only [M.bind, hms] at hok ⊢
        rw [(hf a).2 s1 (le_trans hs hn1) b hok, h1]
    | error e =>
        simp only [M.bind, hms] at hok
        exact absurd hok (by simp)

theorem presL_emit (n : Nat) (i : Instr) : PresL n (emit i) := by
  constructor
  · intro s _
    exact ⟨⟨[i], rfl⟩, le_refl _, fun l _ => rfl, fun a _ => rfl⟩
  · intro s _ a _; rfl

theorem presL_bind_newLabel {β : Type} {n : Nat} {f : Nat → M β}
    (hf : ∀ l, n ≤ l → PresL n (f l)) : PresL n (M.bind newLabel f) := by
  constructor
  · intro s hs
    obtain ⟨⟨t, ht⟩, hn, hb, hc⟩ :=
      (hf s.nextLabel hs).1 { s with nextLabel := s.nextLabel + 1 }
        (le_trans hs (Nat.le_succ _))
    exact ⟨⟨t, ht⟩, le_trans (Nat.le_succ _) hn, hb, hc⟩
  · intro s hs a hok
    exact (hf s.nextLabel hs).2 { s with nextLabel := s.nextLabel + 1 }
      (le_trans hs (Nat.le_succ _)) a hok

theorem presL_bind_MakeLoopBuilder {β : Type} {n : Nat} {f : LoopBuilder → M β}
    (hf : ∀ lb : LoopBuilder, n ≤ lb.breakLabel → n ≤ lb.continueLabel → PresL n (f lb)) :
    PresL n (M.bind MakeLoopBuilder f) := by
  constructor
  · intro s hs
    obtain ⟨⟨t, ht⟩, hn, hb, hc⟩ :=
      (hf ⟨s.nextLabel, s.nextLabel + 1⟩ hs (le_trans hs (Nat.le_succ _))).1
        { s with nextLabel := s.nextLabel + 2 }
        (le_trans hs (Nat.le_add_right _ 2))
    exact ⟨⟨t, ht⟩, le_trans (Nat.le_add_right _ 2) hn, hb, hc⟩
  · intro s hs a hok
    exact (hf ⟨s.nextLabel, s.nextLabel + 1⟩ hs (le_trans hs (Nat.le_succ _))).2
      { s with nextLabel := s.nextLabel + 2 }
      (le_trans hs (Nat.le_add_right _ 2)) a hok

theorem presL_bindLabel {n l : Nat} (h : n ≤ l) : PresL n (bindLabel l) := by
  constructor
  · intro s hs
    refine ⟨⟨[], by simp [bindLabel]⟩, le_refl _, fun l2 hl2 => ?_, fun a _ => rfl⟩
    show lookupBind l2 ((l, s.instrs.length) :: s.labelBinds) = lookupBind l2 s.labelBinds
    simp only [lookupBind]
    rw [if_neg (show ¬ l2 = l by omega)]
  · intro s _ a _; rfl

theorem presC_newRegister (n : Nat) : PresC n newRegister := by
  intro s _
  exact ⟨⟨[], by simp [newRegister]⟩, le_refl _, fun l _ => rfl, fun a _ => rfl⟩

theorem presL_getControlScopes (n : Nat) : PresL n getControlScopes := by
  constructor
  · intro s _
    exact ⟨⟨[], by simp [getControlScopes]⟩, le_refl _, fun l _ => rfl, fun a _ => rfl⟩
  · intro s _ a _; rfl

theorem presL_UNIMPLEMENTED {α : Type} (n : Nat) : PresL n (UNIMPLEMENTED : M α) := by
  constructor
  · intro s _
    exact ⟨⟨[], by simp [UNIMPLEMENTED]⟩, le_refl _, fun l _ => rfl,
      fun a h => absurd h (by simp [UNIMPLEMENTED])⟩
  · intro s _ a h; exact absurd h (by simp [UNIMPLEMENTED])

theorem presL_UNREACHABLE {α : Type} (n : Nat) : PresL n (UNREACHABLE : M α) := by
  constructor
  · intro s _
    exact ⟨⟨[], by simp [UNREACHABLE]⟩, le_refl _, fun l _ => rfl,
      fun a h => absurd h (by simp [UNREACHABLE])⟩
  · intro s _ a h; exact absurd h (by simp [UNREACHABLE])

theorem presL_SetBreakTarget {n : Nat} {lb : LoopBuilder} (t : Nat)
    (h : n ≤ lb.breakLabel) : PresL n (LoopBuilder.SetBreakTarget lb t) := by
  constructor
  · intro s hs
    unfold LoopBuilder.SetBreakTarget
    cases lookupBind t s.labelBinds with
    | some p =>
        refine ⟨⟨[], by simp⟩, le_refl _, fun l2 hl2 => ?_, fun a _ => rfl⟩
        show lookupBind l2 ((lb.breakLabel, p) :: s.labelBinds) = lookupBind l2 s.labelBinds
        simp only [lookupBind]
        rw [if_neg (show ¬ l2 = lb.breakLabel by omega)]
    | none => exact ⟨⟨[], by simp⟩, le_refl _, fun l2 _ => rfl,
        fun a h => absurd h (by simp)⟩
  · intro s _ a _
    unfold LoopBuilder.SetBreakTarget
    cases lookupBind t s.labelBinds <;> rfl

theorem presL_SetContinueTarget {n : Nat} {lb : LoopBuilder} (t : Nat)
    (h : n ≤ lb.continueLabel) : PresL n (LoopBuilder.SetContinueTarget lb t) := by
  constructor
  · intro s hs
    unfold LoopBuilder.SetContinueTarget
    cases lookupBind t s.labelBinds with
    | some p =>
        refine ⟨⟨[], by simp⟩, le_refl _, fun l2 hl2 => ?_, fun a _ => rfl⟩
        show lookupBind l2 ((lb.continueLabel, p) :: s.labelBinds) = lookupBind l2 s.labelBinds
        simp only [lookupBind]
        rw [if_neg (show ¬ l2 = lb.continueLabel by omega)]
    | none => exact ⟨⟨[], by simp⟩, le_refl _, fun l2 _ => rfl,
        fun a h => absurd h (by simp)⟩
  · intro s _ a _
    unfold LoopBuilder.SetContinueTarget
    cases lookupBind t s.labelBinds <;> rfl

theorem presL_withTempRegisterScope {n : Nat} {body : M Unit} (h : PresC n body) :
    PresL n (withTempRegisterScope body) := by
  constructor
  · intro s hs
    obtain ⟨⟨t, ht⟩, hn, hb, hc⟩ := h s hs
    unfold withTempRegisterScope
    rcases hbs : body s with ⟨r, s1⟩
    rw [hbs] at ht hn hb hc
    cases r with
    | ok u => exact ⟨⟨t, ht⟩, hn, hb, fun a _ => hc u rfl⟩
    | error e => exact ⟨⟨t, ht⟩, hn, hb, fun a ha => absurd ha (by simp)⟩
  · intro s _ a ha
    unfold withTempRegisterScope at ha ⊢
    rcases hbs : body s with ⟨r, s1⟩
    rw [hbs] at ha
    cases r with
    | ok u => rfl
    | error e => exact Except.noConfusion ha

theorem presL_withControlScope {n : Nat} {c : CtrlScope} {body : M Unit}
    (h : PresL n body) : PresL n (withControlScope c body) := by
  constructor
  · intro s hs
    obtain ⟨⟨t, ht⟩, hn, hb, hc⟩ := h.1 { s with ctrlScopes := c :: s.ctrlScopes } hs
    unfold withControlScope
    rcases hbs : body { s with ctrlScopes := c :: s.ctrlScopes } with ⟨r, s1⟩
    rw [hbs] at ht hn hb hc
    cases r with
    | ok u => exact ⟨⟨t, ht⟩, hn, hb, fun a _ => rfl⟩
    | error e => exact ⟨⟨t, ht⟩, hn, hb, fun a ha => absurd ha (by simp)⟩
  · intro s hs a ha
    unfold withControlScope at ha ⊢
    rcases hbs : body { s with ctrlScopes := c :: s.ctrlScopes } with ⟨r, s1⟩
    rw [hbs] at ha
    cases r with
    | ok u =>
        have h1 := h.2 { s with ctrlScopes := c :: s.ctrlScopes } hs u (by rw [hbs])
        rw [hbs] at h1
        exact h1
    | error e => exact Except.noConfusion ha

theorem presL_Execute (n : Nat) (c : CtrlScope) (cmd : Command) (target : Nat) :
    PresL n (CtrlScope.Execute c cmd target) := by
  unfold CtrlScope.Execute
  by_cases h : target = c.stmtId
  · simp only [h, if_pos rfl]
    cases cmd with
    | cmdBreak => exact presL_bind (presL_emit n _) (fun _ => presL_pure n _)
    | cmdContinue => exact presL_bind (presL_emit n _) (fun _ => presL_pure n _)
  · simp only [if_neg h]
    exact presL_pure n _

theorem presL_PerformCommand (n : Nat) (cmd : Command) (target : Nat) :
    ∀ scopes : List CtrlScope, PresL n (PerformCommand cmd target scopes) := by
  intro scopes
  induction scopes with
  | nil => exact presL_UNREACHABLE n
  | cons c rest ih =>
      unfold PerformCommand
      refine presL_bind (presL_Execute n c cmd target) (fun handled => ?_)
      cases handled with
      | true => exact presL_pure n _
      | false => exact ih

theorem presL_VisitLiteralValue (n : Nat) (v : LitValue) :
    PresL n (VisitLiteralValue v) := by
  cases v <;> exact presL_emit n _

theorem presL_VisitVariableLoad (n : Nat) (v : Variable) :
    PresL n (VisitVariableLoad v) := by
  unfold VisitVariableLoad
  cases h : v.location
  · by_cases hg : v.isStaticGlobalObjectProperty
    · simp only [hg, if_pos rfl]; exact presL_emit n _
    · simp only [if_neg hg]; exact presL_UNREACHABLE n
  · exact presL_UNIMPLEMENTED n
  · exact presL_emit n _
  · exact presL_emit n _
  · exact presL_UNIMPLEMENTED n
  · exact presL_UNIMPLEMENTED n

theorem presL_VisitVariableDeclaration (n : Nat) (v : Variable) :
    PresL n (VisitVariableDeclaration v) := by
  unfold VisitVariableDeclaration
  cases v.location
  · exact presL_UNIMPLEMENTED n
  · exact presL_UNIMPLEMENTED n
  · exact presL_pure n _
  · exact presL_pure n _
  · exact presL_UNIMPLEMENTED n
  · exact presL_UNIMPLEMENTED n

/-- Unfolding equation of the VisitBlock arm of the dispatcher. -/
theorem Visit_block_eq (info : FnContext) (hasScope : Bool) (contextLocalCount : Nat)
    (decls stmts : AstList) :
    Visit info (Ast.block hasScope contextLocalCount decls stmts) = (do
      emit Instr.enterBlock
      (if hasScope then
         (if contextLocalCount > 0 then UNIMPLEMENTED
          else do
            VisitStatements info decls
            VisitStatements info stmts)
       else VisitStatements info stmts)
      emit Instr.leaveBlock) := rfl

mutual
/-- Every lowering rule only appends to the instruction sink, never
decreases the fresh label counter, leaves every label below the baseline
bound as it was, and on success restores the temporary register frontier. -/
theorem presVisit (info : FnContext) : ∀ (a : Ast) (n : Nat), PresL n (Visit info a)
  | Ast.literal v, n => presL_VisitLiteralValue n v
  | Ast.varProxy v, n => presL_VisitVariableLoad n v
  | Ast.property obj superAccess key slot, n => by
      refine presL_withTempRegisterScope ?_
      refine presC_bind (presC_newRegister n) (fun objReg => ?_)
      refine presC_bind (presVisit info obj n).1 (fun _ => ?_)
      exact presC_bind (presL_emit n _).1
        (fun _ => (presVisitPropertyLoad info objReg superAccess key slot n).1)
  | Ast.assignment isCompound target value slot, n => by
      cases target with
      | property obj superAccess key pslot =>
          cases superAccess with
          | false =>
              cases key with
              | nameKey name =>
                  refine presL_withTempRegisterScope ?_
                  refine presC_bind (presC_newRegister n) (fun object => ?_)
                  refine presC_bind (presC_newRegister n) (fun keyReg => ?_)
                  refine presC_bind (presVisit info obj n).1 (fun _ => ?_)
                  refine presC_bind (presL_emit n _).1 (fun _ => ?_)
                  refine presC_bind (presL_emit n _).1 (fun _ => ?_)
                  refine presC_bind (presL_emit n _).1 (fun _ => ?_)
                  refine presC_bind ?_ (fun _ => (presL_emit n _).1)
                  cases isCompound with
                  | true => exact (presL_UNIMPLEMENTED n).1
                  | false => exact (presVisit info value n).1
              | exprKey kexpr =>
                  refine presL_withTempRegisterScope ?_
                  refine presC_bind (presC_newRegister n) (fun object => ?_)
                  refine presC_bind (presC_newRegister n) (fun keyReg => ?_)
                  refine presC_bind (presVisit info obj n).1 (fun _ => ?_)
                  refine presC_bind (presL_emit n _).1 (fun _ => ?_)
                  refine presC_bind (presVisit info kexpr n).1 (fun _ => ?_)
                  refine presC_bind (presL_emit n _).1 (fun _ => ?_)
                  refine presC_bind ?_ (fun _ => (presL_emit n _).1)
                  cases isCompound with
                  | true => exact (presL_UNIMPLEMENTED n).1
                  | false => exact (presVisit info value n).1
          | true =>
              cases key with
              | nameKey name =>
                  exact presL_withTempRegisterScope (presL_UNIMPLEMENTED n).1
              | exprKey kexpr =>
                  exact presL_withTempRegisterScope (presL_UNIMPLEMENTED n).1
      | varProxy v =>
          refine presL_withTempRegisterScope ?_
          refine presC_bind ?_ (fun _ => ?_)
          · cases isCompound with
            | true => exact (presL_UNIMPLEMENTED n).1
            | false => exact (presVisit info value n).1
          · split
            · exact (presL_emit n _).1
            · exact (presL_UNREACHABLE n).1
      | literal v => exact presL_UNREACHABLE n
      | assignment ic t v sl => exact presL_UNREACHABLE n
      | call ct c as => exact presL_UNREACHABLE n
      | callRuntime ij fid rs as => exact presL_UNREACHABLE n
      | binaryOp op l r => exact presL_UNREACHABLE n
      | compareOp op l r => exact presL_UNREACHABLE n
      | spread e => exact presL_UNREACHABLE n
      | emptyParentheses => exact presL_UNREACHABLE n
      | unsupportedExpr k => exact presL_UNREACHABLE n
      | block hs clc d st => exact presL_UNREACHABLE n
      | varDecl v => exact presL_UNREACHABLE n
      | exprStmt e => exact presL_UNREACHABLE n
      | emptyStmt => exact presL_UNREACHABLE n
      | ifStmt c t e => exact presL_UNREACHABLE n
      | sloppyBlockFunction i => exact presL_UNREACHABLE n
      | continueStmt t => exact presL_UNREACHABLE n
      | breakStmt t => exact presL_UNREACHABLE n
      | returnStmt e => exact presL_UNREACHABLE n
      | doWhile i b c => exact presL_UNREACHABLE n
      | whileStmt i c b => exact presL_UNREACHABLE n
      | forStmt i ii cc nn b => exact presL_UNREACHABLE n
      | unsupportedStmt k => exact presL_UNREACHABLE n
  | Ast.call callType callee args, n => by
      cases callType with
      | propertyCall =>
          cases callee with
          | property obj superAccess key pslot =>
              refine presL_withTempRegisterScope ?_
              refine presC_bind (presC_newRegister n) (fun calleeReg => ?_)
              refine presC_bind (presC_newRegister n) (fun receiverReg => ?_)
              refine presC_bind ?_ (fun _ => presC_bind
                (presCVisitCallArgs info (regIndex receiverReg) args 0 n)
                (fun _ => (presL_emit n _).1))
              cases superAccess with
              | true => exact (presL_UNIMPLEMENTED n).1
              | false =>
                  refine presC_bind (presVisit info obj n).1 (fun _ => ?_)
                  refine presC_bind (presL_emit n _).1 (fun _ => ?_)
                  exact presC_bind
                    (presVisitPropertyLoad info receiverReg false key pslot n).1
                    (fun _ => (presL_emit n _).1)
          | literal v =>
              exact presL_withTempRegisterScope (presC_bind (presC_newRegister n)
                (fun calleeReg => presC_bind (presC_newRegister n) (fun receiverReg =>
                  presC_bind (presL_UNREACHABLE n).1 (fun _ => presC_bind
                    (presCVisitCallArgs info (regIndex receiverReg) args 0 n)
                    (fun _ => (presL_emit n _).1)))))
          | varProxy v =>
              exact presL_withTempRegisterScope (presC_bind (presC_newRegister n)
                (fun calleeReg => presC_bind (presC_newRegister n) (fun receiverReg =>
                  presC_bind (presL_UNREACHABLE n).1 (fun _ => presC_bind
                    (presCVisitCallArgs info (regIndex receiverReg) args 0 n)
                    (fun _ => (presL_emit n _).1)))))
          | assignment ic t v sl =>
              exact presL_withTempRegisterScope (presC_bind (presC_newRegister n)
                (fun calleeReg => presC_bind (presC_newRegister n) (fun receiverReg =>
                  presC_bind (presL_UNREACHABLE n).1 (fun _ => presC_bind
                    (presCVisitCallArgs info (regIndex receiverReg) args 0 n)
                    (fun _ => (presL_emit n _).1)))))
          | call ct2 c2 as2 =>
              exact presL_withTempRegisterScope (presC_bind (presC_newRegister n)
                (fun calleeReg => presC_bind (presC_newRegister n) (fun receiverReg =>
                  presC_bind (presL_UNREACHABLE n).1 (fun _ => presC_bind
                    (presCVisitCallArgs info (regIndex receiverReg) args 0 n)
                    (fun _ => (presL_emit n _).1)))))
          | callRuntime ij fid rs as2 =>
              exact presL_withTempRegisterScope (presC_bind (presC_newRegister n)
                (fun calleeReg => presC_bind (presC_newRegister n) (fun receiverReg =>
                  presC_bind (presL_UNREACHABLE n).1 (fun _ => presC_bind
                    (presCVisitCallArgs info (regIndex receiverReg) args 0 n)
                    (fun _ => (presL_emit n _).1)))))
          | binaryOp op l r =>
              exact presL_withTempRegisterScope (presC_bind (presC_newRegister n)
                (fun calleeReg => presC_bind (presC_newRegister n) (fun receiverReg =>
                  presC_bind (presL_UNREACHABLE n).1 (fun _ => presC_bind
                    (presCVisitCallArgs info (regIndex receiverReg) args 0 n)
                    (fun _ => (presL_emit n _).1)))))
          | compareOp op l r =>
              exact presL_withTempRegisterScope (presC_bind (presC_newRegister n)
                (fun calleeReg => presC_bind (presC_newRegister n) (fun receiverReg =>
                  presC_bind (presL_UNREACHABLE n).1 (fun _ => presC_bind
                    (presCVisitCallArgs info (regIndex receiverReg) args 0 n)
                    (fun _ => (presL_emit n _).1)))))
          | spread e =>
              exact presL_withTempRegisterScope (presC_bind (presC_newRegister n)
                (fun calleeReg => presC_bind (presC_newRegister n) (fun receiverReg =>
                  presC_bind (presL_UNREACHABLE n).1 (fun _ => presC_bind
                    (presCVisitCallArgs info (regIndex receiverReg) args 0 n)
                    (fun _ => (presL_emit n _).1)))))
          | emptyParentheses =>
              exact presL_withTempRegisterScope (presC_bind (presC_newRegister n)
                (fun calleeReg => presC_bind (presC_newRegister n) (fun receiverReg =>
                  presC_bind (presL_UNREACHABLE n).1 (fun _ => presC_bind
                    (presCVisitCallArgs info (regIndex receiverReg) args 0 n)
                    (fun _ => (presL_emit n _).1)))))
          | unsupportedExpr k =>
              exact presL_withTempRegisterScope (presC_bind (presC_newRegister n)
                (fun calleeReg => presC_bind (presC_newRegister n) (fun receiverReg =>
                  presC_bind (presL_UNREACHABLE n).1 (fun _ => presC_bind
                    (presCVisitCallArgs info (regIndex receiverReg) args 0 n)
                    (fun _ => (presL_emit n _).1)))))
          | block hs clc d st =>
              exact presL_withTempRegisterScope (presC_bind (presC_newRegister n)
                (fun calleeReg => presC_bind (presC_newRegister n) (fun receiverReg =>
                  presC_bind (presL_UNREACHABLE n).1 (fun _ => presC_bind
                    (presCVisitCallArgs info (regIndex receiverReg) args 0 n)
                    (fun _ => (presL_emit n _).1)))))
          | varDecl v =>
              exact presL_withTempRegisterScope (presC_bind (presC_newRegister n)
                (fun calleeReg => presC_bind (presC_newRegister n) (fun receiverReg =>
                  presC_bind (presL_UNREACHABLE n).1 (fun _ => presC_bind
                    (presCVisitCallArgs info (regIndex receiverReg) args 0 n)
                    (fun _ => (presL_emit n _).1)))))
          | exprStmt e =>
              exact presL_withTempRegisterScope (presC_bind (presC_newRegister n)
                (fun calleeReg => presC_bind (presC_newRegister n) (fun receiverReg =>
                  presC_bind (presL_UNREACHABLE n).1 (fun _ => presC_bind
                    (presCVisitCallArgs info (regIndex receiverReg) args 0 n)
                    (fun _ => (presL_emit n _).1)))))
          | emptyStmt =>
              exact presL_withTempRegisterScope (presC_bind (presC_newRegister n)
                (fun calleeReg => presC_bind (presC_newRegister n) (fun receiverReg =>
                  presC_bind (presL_UNREACHABLE n).1 (fun _ => presC_bind
                    (presCVisitCallArgs info (regIndex receiverReg) args 0 n)
                    (fun _ => (presL_emit n _).1)))))
          | ifStmt c t e =>
              exact presL_withTempRegisterScope (presC_bind (presC_newRegister n)
                (fun calleeReg => presC_bind (presC_newRegister n) (fun receiverReg =>
                  presC_bind (presL_UNREACHABLE n).1 (fun _ => presC_bind
                    (presCVisitCallArgs info (regIndex receiverReg) args 0 n)
                    (fun _ => (presL_emit n _).1)))))
          | sloppyBlockFunction i =>
              exact presL_withTempRegisterScope (presC_bind (presC_newRegister n)
                (fun calleeReg => presC_bind (presC_newRegister n) (fun receiverReg =>
                  presC_bind (presL_UNREACHABLE n).1 (fun _ => presC_bind
                    (presCVisitCallArgs info (regIndex receiverReg) args 0 n)
                    (fun _ => (presL_emit n _).1)))))
          | continueStmt t =>
              exact presL_withTempRegisterScope (presC_bind (presC_newRegister n)
                (fun calleeReg => presC_bind (presC_newRegister n) (fun receiverReg =>
                  presC_bind (presL_UNREACHABLE n).1 (fun _ => presC_bind
                    (presCVisitCallArgs info (regIndex receiverReg) args 0 n)
                    (fun _ => (presL_emit n _).1)))))
          | breakStmt t =>
              exact presL_withTempRegisterScope (presC_bind (presC_newRegister n)
                (fun calleeReg => presC_bind (presC_newRegister n) (fun receiverReg =>
                  presC_bind (presL_UNREACHABLE n).1 (fun _ => presC_bind
                    (presCVisitCallArgs info (regIndex receiverReg) args 0 n)
                    (fun _ => (presL_emit n _).1)))))
          | returnStmt e =>
              exact presL_withTempRegisterScope (presC_bind (presC_newRegister n)
                (fun calleeReg => presC_bind (presC_newRegister n) (fun receiverReg =>
                  presC_bind (presL_UNREACHABLE n).1 (fun _ => presC_bind
                    (presCVisitCallArgs info (regIndex receiverReg) args 0 n)
                    (fun _ => (presL_emit n _).1)))))
          | doWhile i b c =>
              exact presL_withTempRegisterScope (presC_bind (presC_newRegister n)
                (fun calleeReg => presC_bind (presC_newRegister n) (fun receiverReg =>
                  presC_bind (presL_UNREACHABLE n).1 (fun _ => presC_bind
                    (presCVisitCallArgs info (regIndex receiverReg) args 0 n)
                    (fun _ => (presL_emit n _).1)))))
          | whileStmt i c b =>
              exact presL_withTempRegisterScope (presC_bind (presC_newRegister n)
                (fun calleeReg => presC_bind (presC_newRegister n) (fun receiverReg =>
                  presC_bind (presL_UNREACHABLE n).1 (fun _ => presC_bind
                    (presCVisitCallArgs info (regIndex receiverReg) args 0 n)
                    (fun _ => (presL_emit n _).1)))))
          | forStmt i ii cc nn b =>
              exact presL_withTempRegisterScope (presC_bind (presC_newRegister n)
                (fun calleeReg => presC_bind (presC_newRegister n) (fun receiverReg =>
                  presC_bind (presL_UNREACHABLE n).1 (fun _ => presC_bind
                    (presCVisitCallArgs info (regIndex receiverReg) args 0 n)
                    (fun _ => (presL_emit n _).1)))))
          | unsupportedStmt k =>
              exact presL_withTempRegisterScope (presC_bind (presC_newRegister n)
                (fun calleeReg => presC_bind (presC_newRegister n) (fun receiverReg =>
                  presC_bind (presL_UNREACHABLE n).1 (fun _ => presC_bind
                    (presCVisitCallArgs info (regIndex receiverReg) args 0 n)
                    (fun _ => (presL_emit n _).1)))))
      | globalCall =>
          cases callee with
          | varProxy v =>
              refine presL_withTempRegisterScope ?_
              refine presC_bind (presC_newRegister n) (fun calleeReg => ?_)
              refine presC_bind (presC_newRegister n) (fun receiverReg => ?_)
              refine presC_bind ?_ (fun _ => presC_bind
                (presCVisitCallArgs info (regIndex receiverReg) args 0 n)
                (fun _ => (presL_emit n _).1))
              refine presC_bind (presL_emit n _).1 (fun _ => ?_)
              refine presC_bind (presL_emit n _).1 (fun _ => ?_)
              exact presC_bind (presL_VisitVariableLoad n v).1 (fun _ => (presL_emit n _).1)
          | literal v =>
              exact presL_withTempRegisterScope (presC_bind (presC_newRegister n)
                (fun calleeReg => presC_bind (presC_newRegister n) (fun receiverReg =>
                  presC_bind (presL_UNREACHABLE n).1 (fun _ => presC_bind
                    (presCVisitCallArgs info (regIndex receiverReg) args 0 n)
                    (fun _ => (presL_emit n _).1)))))
          | assignment ic t v sl =>
              exact presL_withTempRegisterScope (presC_bind (presC_newRegister n)
                (fun calleeReg => presC_bind (presC_newRegister n) (fun receiverReg =>
                  presC_bind (presL_UNREACHABLE n).1 (fun _ => presC_bind
                    (presCVisitCallArgs info (regIndex receiverReg) args 0 n)
                    (fun _ => (presL_emit n _).1)))))
          | call ct2 c2 as2 =>
              exact presL_withTempRegisterScope (presC_bind (presC_newRegister n)
                (fun calleeReg => presC_bind (presC_newRegister n) (fun receiverReg =>
                  presC_bind (presL_UNREACHABLE n).1 (fun _ => presC_bind
                    (presCVisitCallArgs info (regIndex receiverReg) args 0 n)
                    (fun _ => (presL_emit n _).1)))))
          | callRuntime ij fid rs as2 =>
              exact presL_withTempRegisterScope (presC_bind (presC_newRegister n)
                (fun calleeReg => presC_bind (presC_newRegister n) (fun receiverReg =>
                  presC_bind (presL_UNREACHABLE n).1 (fun _ => presC_bind
                    (presCVisitCallArgs info (regIndex receiverReg) args 0 n)
                    (fun _ => (presL_emit n _).1)))))
          | binaryOp op l r =>
              exact presL_withTempRegisterScope (presC_bind (presC_newRegister n)
                (fun calleeReg => presC_bind (presC_newRegister n) (fun receiverReg =>
                  presC_bind (presL_UNREACHABLE n).1 (fun _ => presC_bind
                    (presCVisitCallArgs info (regIndex receiverReg) args 0 n)
                    (fun _ => (presL_emit n _).1)))))
          | compareOp op l r =>
              exact presL_withTempRegisterScope (presC_bind (presC_newRegister n)
                (fun calleeReg => presC_bind (presC_newRegister n) (fun receiverReg =>
                  presC_bind (presL_UNREACHABLE n).1 (fun _ => presC_bind
                    (presCVisitCallArgs info (regIndex receiverReg) args 0 n)
                    (fun _ => (presL_emit n _).1)))))
          | spread e =>
              exact presL_withTempRegisterScope (presC_bind (presC_newRegister n)
                (fun calleeReg => presC_bind (presC_newRegister n) (fun receiverReg =>
                  presC_bind (presL_UNREACHABLE n).1 (fun _ => presC_bind
                    (presCVisitCallArgs info (regIndex receiverReg) args 0 n)
                    (fun _ => (presL_emit n _).1)))))
          | emptyParentheses =>
              exact presL_withTempRegisterScope (presC_bind (presC_newRegister n)
                (fun calleeReg => presC_bind (presC_newRegister n) (fun receiverReg =>
                  presC_bind (presL_UNREACHABLE n).1 (fun _ => presC_bind
                    (presCVisitCallArgs info (regIndex receiverReg) args 0 n)
                    (fun _ => (presL_emit n _).1)))))
          | unsupportedExpr k =>
              exact presL_withTempRegisterScope (presC_bind (presC_newRegister n)
                (fun calleeReg => presC_bind (presC_newRegister n) (fun receiverReg =>
                  presC_bind (presL_UNREACHABLE n).1 (fun _ => presC_bind
                    (presCVisitCallArgs info (regIndex receiverReg) args 0 n)
                    (fun _ => (presL_emit n _).1)))))
          | block hs clc d st =>
              exact presL_withTempRegisterScope (presC_bind (presC_newRegister n)
                (fun calleeReg => presC_bind (presC_newRegister n) (fun receiverReg =>
                  presC_bind (presL_UNREACHABLE n).1 (fun _ => presC_bind
                    (presCVisitCallArgs info (regIndex receiverReg) args 0 n)
                    (fun _ => (presL_emit n _).1)))))
          | varDecl v =>
              exact presL_withTempRegisterScope (presC_bind (presC_newRegister n)
                (fun calleeReg => presC_bind (presC_newRegister n) (fun receiverReg =>
                  presC_bind (presL_UNREACHABLE n).1 (fun _ => presC_bind
                    (presCVisitCallArgs info (regIndex receiverReg) args 0 n)
                    (fun _ => (presL_emit n _).1)))))
          | exprStmt e =>
              exact presL_withTempRegisterScope (presC_bind (presC_newRegister n)
                (fun calleeReg => presC_bind (presC_newRegister n) (fun receiverReg =>
                  presC_bind (presL_UNREACHABLE n).1 (fun _ => presC_bind
                    (presCVisitCallArgs info (regIndex receiverReg) args 0 n)
                    (fun _ => (presL_emit n _).1)))))
          | emptyStmt =>
              exact presL_withTempRegisterScope (presC_bind (presC_newRegister n)
                (fun calleeReg => presC_bind (presC_newRegister n) (fun receiverReg =>
                  presC_bind (presL_UNREACHABLE n).1 (fun _ => presC_bind
                    (presCVisitCallArgs info (regIndex receiverReg) args 0 n)
                    (fun _ => (presL_emit n _).1)))))
          | ifStmt c t e =>
              exact presL_withTempRegisterScope (presC_bind (presC_newRegister n)
                (fun calleeReg => presC_bind (presC_newRegister n) (fun receiverReg =>
                  presC_bind (presL_UNREACHABLE n).1 (fun _ => presC_bind
                    (presCVisitCallArgs info (regIndex receiverReg) args 0 n)
                    (fun _ => (presL_emit n _).1)))))
          | sloppyBlockFunction i =>
              exact presL_withTempRegisterScope (presC_bind (presC_newRegister n)
                (fun calleeReg => presC_bind (presC_newRegister n) (fun receiverReg =>
                  presC_bind (presL_UNREACHABLE n).1 (fun _ => presC_bind
                    (presCVisitCallArgs info (regIndex receiverReg) args 0 n)
                    (fun _ => (presL_emit n _).1)))))
          | continueStmt t =>
              exact presL_withTempRegisterScope (presC_bind (presC_newRegister n)
                (fun calleeReg => presC_bind (presC_newRegister n) (fun receiverReg =>
                  presC_bind (presL_UNREACHABLE n).1 (fun _ => presC_bind
                    (presCVisitCallArgs info (regIndex receiverReg) args 0 n)
                    (fun _ => (presL_emit n _).1)))))
          | breakStmt t =>
              exact presL_withTempRegisterScope (presC_bind (presC_newRegister n)
                (fun calleeReg => presC_bind (presC_newRegister n) (fun receiverReg =>
                  presC_bind (presL_UNREACHABLE n).1 (fun _ => presC_bind
                    (presCVisitCallArgs info (regIndex receiverReg) args 0 n)
                    (fun _ => (presL_emit n _).1)))))
          | returnStmt e =>
              exact presL_withTempRegisterScope (presC_bind (presC_newRegister n)
                (fun calleeReg => presC_bind (presC_newRegister n) (fun receiverReg =>
                  presC_bind (presL_UNREACHABLE n).1 (fun _ => presC_bind
                    (presCVisitCallArgs info (regIndex receiverReg) args 0 n)
                    (fun _ => (presL_emit n _).1)))))
          | doWhile i b c =>
              exact presL_withTempRegisterScope (presC_bind (presC_newRegister n)
                (fun calleeReg => presC_bind (presC_newRegister n) (fun receiverReg =>
                  presC_bind (presL_UNREACHABLE n).1 (fun _ => presC_bind
                    (presCVisitCallArgs info (regIndex receiverReg) args 0 n)
                    (fun _ => (presL_emit n _).1)))))
          | whileStmt i c b =>
              exact presL_withTempRegisterScope (presC_bind (presC_newRegister n)
                (fun calleeReg => presC_bind (presC_newRegister n) (fun receiverReg =>
                  presC_bind (presL_UNREACHABLE n).1 (fun _ => presC_bind
                    (presCVisitCallArgs info (regIndex receiverReg) args 0 n)
                    (fun _ => (presL_emit n _).1)))))
          | forStmt i ii cc nn b =>
              exact presL_withTempRegisterScope (presC_bind (presC_newRegister n)
                (fun calleeReg => presC_bind (presC_newRegister n) (fun receiverReg =>
                  presC_bind (presL_UNREACHABLE n).1 (fun _ => presC_bind
                    (presCVisitCallArgs info (regIndex receiverReg) args 0 n)
                    (fun _ => (presL_emit n _).1)))))
          | unsupportedStmt k =>
              exact presL_withTempRegisterScope (presC_bind (presC_newRegister n)
                (fun calleeReg => presC_bind (presC_newRegister n) (fun receiverReg =>
                  presC_bind (presL_UNREACHABLE n).1 (fun _ => presC_bind
                    (presCVisitCallArgs info (regIndex receiverReg) args 0 n)
                    (fun _ => (presL_emit n _).1)))))
          | property o sa k sl =>
              exact presL_withTempRegisterScope (presC_bind (presC_newRegister n)
                (fun calleeReg => presC_bind (presC_newRegister n) (fun receiverReg =>
                  presC_bind (presL_UNREACHABLE n).1 (fun _ => presC_bind
                    (presCVisitCallArgs info (regIndex receiverReg) args 0 n)
                    (fun _ => (presL_emit n _).1)))))
      | lookupSlotCall =>
          exact presL_withTempRegisterScope (presC_bind (presC_newRegister n)
            (fun calleeReg => presC_bind (presC_newRegister n) (fun receiverReg =>
              presC_bind (presL_UNIMPLEMENTED n).1 (fun _ => presC_bind
                (presCVisitCallArgs info (regIndex receiverReg) args 0 n)
                (fun _ => (presL_emit n _).1)))))
      | superCall =>
          exact presL_withTempRegisterScope (presC_bind (presC_newRegister n)
            (fun calleeReg => presC_bind (presC_newRegister n) (fun receiverReg =>
              presC_bind (presL_UNIMPLEMENTED n).1 (fun _ => presC_bind
                (presCVisitCallArgs info (regIndex receiverReg) args 0 n)
                (fun _ => (presL_emit n _).1)))))
      | possiblyEvalCall =>
          exact presL_withTempRegisterScope (presC_bind (presC_newRegister n)
            (fun calleeReg => presC_bind (presC_newRegister n) (fun receiverReg =>
              presC_bind (presL_UNIMPLEMENTED n).1 (fun _ => presC_bind
                (presCVisitCallArgs info (regIndex receiverReg) args 0 n)
                (fun _ => (presL_emit n _).1)))))
      | otherCall =>
          exact presL_withTempRegisterScope (presC_bind (presC_newRegister n)
            (fun calleeReg => presC_bind (presC_newRegister n) (fun receiverReg =>
              presC_bind (presL_UNIMPLEMENTED n).1 (fun _ => presC_bind
                (presCVisitCallArgs info (regIndex receiverReg) args 0 n)
                (fun _ => (presL_emit n _).1)))))
  | Ast.callRuntime isJsruntime functionId resultSize args, n => by
      cases isJsruntime with
      | true => exact presL_UNIMPLEMENTED n
      | false =>
          refine presL_withTempRegisterScope ?_
          refine presC_bind (presC_newRegister n) (fun firstArg => ?_)
          refine presC_bind (presCVisitRuntimeArgs info (regIndex firstArg) args 0 n)
            (fun _ => ?_)
          split
          · exact (presL_emit n _).1
          · exact (presL_UNREACHABLE n).1
  | Ast.binaryOp op lhs rhs, n => by
      cases op
      case comma => exact presL_UNIMPLEMENTED n
      case orTok => exact presL_UNIMPLEMENTED n
      case andTok => exact presL_UNIMPLEMENTED n
      all_goals
        refine presL_withTempRegisterScope ?_
        refine presC_bind (presC_newRegister n) (fun temporary => ?_)
        refine presC_bind (presVisit info lhs n).1 (fun _ => ?_)
        refine presC_bind (presL_emit n _).1 (fun _ => ?_)
        exact presC_bind (presVisit info rhs n).1 (fun _ => (presL_emit n _).1)
  | Ast.compareOp op lhs rhs, n => by
      refine presL_withTempRegisterScope ?_
      refine presC_bind (presC_newRegister n) (fun temporary => ?_)
      refine presC_bind (presVisit info lhs n).1 (fun _ => ?_)
      refine presC_bind (presL_emit n _).1 (fun _ => ?_)
      exact presC_bind (presVisit info rhs n).1 (fun _ => (presL_emit n _).1)
  | Ast.spread _, n => presL_UNREACHABLE n
  | Ast.emptyParentheses, n => presL_UNREACHABLE n
  | Ast.unsupportedExpr _, n => presL_UNIMPLEMENTED n
  | Ast.block hasScope contextLocalCount decls stmts, n => by
      rw [Visit_block_eq]
      refine presL_bind (presL_emit n _) (fun _ => ?_)
      refine presL_bind ?_ (fun _ => presL_emit n _)
      cases hasScope with
      | false => exact presVisitStatements info stmts n
      | true =>
          rw [if_pos rfl]
          split
          · exact presL_UNIMPLEMENTED n
          · exact presL_bind (presVisitStatements info decls n)
              (fun _ => presVisitStatements info stmts n)
  | Ast.varDecl v, n => presL_VisitVariableDeclaration n v
  | Ast.exprStmt e, n => presVisit info e n
  | Ast.emptyStmt, n => presL_pure n ()
  | Ast.ifStmt cond thenS elseS, n => by
      cases elseS with
      | someA e =>
          refine presL_bind_newLabel (fun elseLabel hl1 => ?_)
          refine presL_bind_newLabel (fun endLabel hl2 => ?_)
          refine presL_bind (presVisit info cond n) (fun _ => ?_)
          refine presL_bind (presL_emit n _) (fun _ => ?_)
          refine presL_bind (presL_emit n _) (fun _ => ?_)
          refine presL_bind (presVisit info thenS n) (fun _ => ?_)
          exact presL_bind (presL_bind (presL_emit n _) (fun _ =>
            presL_bind (presL_bindLabel hl1) (fun _ => presVisit info e n)))
            (fun _ => presL_bindLabel hl2)
      | noneA =>
          refine presL_bind_newLabel (fun elseLabel hl1 => ?_)
          refine presL_bind_newLabel (fun endLabel hl2 => ?_)
          refine presL_bind (presVisit info cond n) (fun _ => ?_)
          refine presL_bind (presL_emit n _) (fun _ => ?_)
          refine presL_bind (presL_emit n _) (fun _ => ?_)
          refine presL_bind (presVisit info thenS n) (fun _ => ?_)
          exact presL_bind (presL_bindLabel hl1) (fun _ => presL_bindLabel hl2)
  | Ast.sloppyBlockFunction inner, n => presVisit info inner n
  | Ast.continueStmt target, n =>
      presL_bind (presL_getControlScopes n)
        (fun scopes => presL_PerformCommand n Command.cmdContinue target scopes)
  | Ast.breakStmt target, n =>
      presL_bind (presL_getControlScopes n)
        (fun scopes => presL_PerformCommand n Command.cmdBreak target scopes)
  | Ast.returnStmt e, n => by
      exact presL_bind (presVisit info e n) (fun _ => presL_emit n _)
  | Ast.doWhile id body cond, n => by
      refine presL_bind_MakeLoopBuilder (fun lb hb1 hb2 => ?_)
      refine presL_withControlScope ?_
      refine presL_bind_newLabel (fun bodyLabel hl1 => ?_)
      refine presL_bind_newLabel (fun conditionLabel hl2 => ?_)
      refine presL_bind_newLabel (fun doneLabel hl3 => ?_)
      refine presL_bind (presL_bindLabel hl1) (fun _ => ?_)
      refine presL_bind (presVisit info body n) (fun _ => ?_)
      refine presL_bind (presL_bindLabel hl2) (fun _ => ?_)
      refine presL_bind (presVisit info cond n) (fun _ => ?_)
      refine presL_bind (presL_emit n _) (fun _ => ?_)
      refine presL_bind (presL_bindLabel hl3) (fun _ => ?_)
      exact presL_bind (presL_SetBreakTarget _ hb1)
        (fun _ => presL_SetContinueTarget _ hb2)
  | Ast.whileStmt id cond body, n => by
      refine presL_bind_MakeLoopBuilder (fun lb hb1 hb2 => ?_)
      refine presL_withControlScope ?_
      refine presL_bind_newLabel (fun bodyLabel hl1 => ?_)
      refine presL_bind_newLabel (fun conditionLabel hl2 => ?_)
      refine presL_bind_newLabel (fun doneLabel hl3 => ?_)
      refine presL_bind (presL_emit n _) (fun _ => ?_)
      refine presL_bind (presL_bindLabel hl1) (fun _ => ?_)
      refine presL_bind (presVisit info body n) (fun _ => ?_)
      refine presL_bind (presL_bindLabel hl2) (fun _ => ?_)
      refine presL_bind (presVisit info cond n) (fun _ => ?_)
      refine presL_bind (presL_emit n _) (fun _ => ?_)
      refine presL_bind (presL_bindLabel hl3) (fun _ => ?_)
      exact presL_bind (presL_SetBreakTarget _ hb1)
        (fun _ => presL_SetContinueTarget _ hb2)
  | Ast.forStmt id ini cond nxt body, n => by
      cases cond with
      | someA c =>
          refine presL_bind_MakeLoopBuilder (fun lb hb1 hb2 => ?_)
          refine presL_withControlScope ?_
          refine presL_bind (presVisitIfPresent info ini n) (fun _ => ?_)
          refine presL_bind_newLabel (fun bodyLabel hl1 => ?_)
          refine presL_bind_newLabel (fun conditionLabel hl2 => ?_)
          refine presL_bind_newLabel (fun nextLabel hl3 => ?_)
          refine presL_bind_newLabel (fun doneLabel hl4 => ?_)
          refine presL_bind (presL_emit n _) (fun _ => ?_)
          refine presL_bind (presL_bindLabel hl1) (fun _ => ?_)
          refine presL_bind (presVisit info body n) (fun _ => ?_)
          refine presL_bind (presL_bindLabel hl3) (fun _ => ?_)
          refine presL_bind (presVisitIfPresent info nxt n) (fun _ => ?_)
          refine presL_bind (presL_bind (presL_bindLabel hl2) (fun _ =>
            presL_bind (presVisit info c n) (fun _ => presL_emit n _))) (fun _ => ?_)
          refine presL_bind (presL_bindLabel hl4) (fun _ => ?_)
          exact presL_bind (presL_SetBreakTarget _ hb1)
            (fun _ => presL_SetContinueTarget _ hb2)
      | noneA =>
          refine presL_bind_MakeLoopBuilder (fun lb hb1 hb2 => ?_)
          refine presL_withControlScope ?_
          refine presL_bind (presVisitIfPresent info ini n) (fun _ => ?_)
          refine presL_bind_newLabel (fun bodyLabel hl1 => ?_)
          refine presL_bind_newLabel (fun conditionLabel hl2 => ?_)
          refine presL_bind_newLabel (fun nextLabel hl3 => ?_)
          refine presL_bind_newLabel (fun doneLabel hl4 => ?_)
          refine presL_bind (presL_pure n _) (fun _ => ?_)
          refine presL_bind (presL_bindLabel hl1) (fun _ => ?_)
          refine presL_bind (presVisit info body n) (fun _ => ?_)
          refine presL_bind (presL_bindLabel hl3) (fun _ => ?_)
          refine presL_bind (presVisitIfPresent info nxt n) (fun _ => ?_)
          refine presL_bind (presL_emit n _) (fun _ => ?_)
          refine presL_bind (presL_bindLabel hl4) (fun _ => ?_)
          exact presL_bind (presL_SetBreakTarget _ hb1)
            (fun _ => presL_SetContinueTarget _ hb2)
  | Ast.unsupportedStmt _, n => presL_UNIMPLEMENTED n

/-- Statement and declaration lists satisfy the preservation properties. -/
theorem presVisitStatements (info : FnContext) :
    ∀ (l : AstList) (n : Nat), PresL n (VisitStatements info l)
  | AstList.nilA, n => presL_pure n ()
  | AstList.consA a rest, n =>
      presL_bind (presVisit info a n) (fun _ => presVisitStatements info rest n)

/-- Optional components satisfy the preservation properties. -/
theorem presVisitIfPresent (info : FnContext) :
    ∀ (o : OptAst) (n : Nat), PresL n (VisitIfPresent info o)
  | OptAst.someA a, n => presVisit info a n
  | OptAst.noneA, n => presL_pure n ()

/-- Property loads satisfy the preservation properties (they allocate no
registers and bind no labels of their own). -/
theorem presVisitPropertyLoad (info : FnContext) (obj : Reg) :
    ∀ (superAccess : Bool) (key : PropKeyNode) (slot n : Nat),
      PresL n (VisitPropertyLoad info obj superAccess key slot)
  | false, PropKeyNode.nameKey name, slot, n =>
      presL_bind (presL_emit n _) (fun _ => presL_emit n _)
  | false, PropKeyNode.exprKey k, slot, n =>
      presL_bind (presVisit info k n) (fun _ => presL_emit n _)
  | true, PropKeyNode.nameKey name, slot, n => presL_UNIMPLEMENTED n
  | true, PropKeyNode.exprKey k, slot, n => presL_UNIMPLEMENTED n

/-- The call argument loop satisfies the core preservation properties (its
register allocations are reclaimed by the scope of VisitCall). -/
theorem presCVisitCallArgs (info : FnContext) (receiverIdx : Nat) :
    ∀ (args : AstList) (i n : Nat), PresC n (VisitCallArgs info receiverIdx args i)
  | AstList.nilA, _, n => presC_pure n ()
  | AstList.consA a rest, i, n => by
      refine presC_bind (presVisit info a n).1 (fun _ => ?_)
      refine presC_bind (presC_newRegister n) (fun arg => ?_)
      split
      · exact presC_bind (presL_emit n _).1
          (fun _ => presCVisitCallArgs info receiverIdx rest (i + 1) n)
      · exact (presL_UNREACHABLE n).1

/-- The runtime call argument loop satisfies the core preservation
properties. -/
theorem presCVisitRuntimeArgs (info : FnContext) (firstArgIdx : Nat) :
    ∀ (args : AstList) (i n : Nat), PresC n (VisitRuntimeArgs info firstArgIdx args i)
  | AstList.nilA, _, n => presC_pure n ()
  | AstList.consA a rest, i, n => by
      refine presC_bind ?_ (fun arg => ?_)
      · split
        · exact presC_pure n _
        · exact presC_newRegister n
      · refine presC_bind (presVisit info a n).1 (fun _ => ?_)
        split
        · exact presC_bind (presL_emit n _).1
            (fun _ => presCVisitRuntimeArgs info firstArgIdx rest (i + 1) n)
        · exact (presL_UNREACHABLE n).1
end

theorem mbind_step {α β : Type} {m : M α} (f : α → M β) {s s1 : GenState} {a : α}
    (hm : m s = (Except.ok a, s1)) : M.bind m f s = f a s1 := by
  unfold M.bind
  rw [hm]

theorem bind_MakeLoopBuilder_step {β : Type} (f : LoopBuilder → M β) (s : GenState) :
    M.bind MakeLoopBuilder f s =
      f ⟨s.nextLabel, s.nextLabel + 1⟩ { s with nextLabel := s.nextLabel + 2 } := rfl

theorem bind_newLabel_step {β : Type} (f : Nat → M β) (s : GenState) :
    M.bind newLabel f s = f s.nextLabel { s with nextLabel := s.nextLabel + 1 } := rfl

theorem bind_emit_step {β : Type} (i : Instr) (f : Unit → M β) (s : GenState) :
    M.bind (emit i) f s = f () { s with instrs := s.instrs ++ [i] } := rfl

theorem bind_bindLabel_step {β : Type} (l : Nat) (f : Unit → M β) (s : GenState) :
    M.bind (bindLabel l) f s =
      f () { s with labelBinds := (l, s.instrs.length) :: s.labelBinds } := rfl

theorem bind_newRegister_step {β : Type} (f : Reg → M β) (s : GenState) :
    M.bind newRegister f s =
      f (Reg.reg s.tempFrontier) { s with tempFrontier := s.tempFrontier + 1 } := rfl

theorem bind_pure_step {α β : Type} (a : α) (f : α → M β) (s : GenState) :
    M.bind (M.pure a) f s = f a s := rfl

theorem bind_ok {α β : Type} {m : M α} {f : α → M β} {s sF : GenState} {b : β}
    (h : M.bind m f s = (Except.ok b, sF)) :
    ∃ a s1, m s = (Except.ok a, s1) ∧ f a s1 = (Except.ok b, sF) := by
  unfold M.bind at h
  rcases hm : m s with ⟨r, s1⟩
  rw [hm] at h
  cases r with
  | ok a => exact ⟨a, s1, rfl, h⟩
  | error e => exact absurd (congrArg Prod.fst h) (by simp)

theorem withControlScope_ok {c : CtrlScope} {body : M Unit} {s sF : GenState} {u : Unit}
    (h : withControlScope c body s = (Except.ok u, sF)) :
    ∃ s1, body { s with ctrlScopes := c :: s.ctrlScopes } = (Except.ok u, s1) ∧
      sF = { s1 with ctrlScopes := s.ctrlScopes } := by
  unfold withControlScope at h
  rcases hb : body { s with ctrlScopes := c :: s.ctrlScopes } with ⟨r, s1⟩
  rw [hb] at h
  cases r with
  | ok u2 =>
      cases u; cases u2
      exact ⟨s1, rfl, (congrArg Prod.snd h).symm⟩
  | error e => exact absurd (congrArg Prod.fst h) (by simp)

theorem withTempRegisterScope_ok {body : M Unit} {s sF : GenState} {u : Unit}
    (h : withTempRegisterScope body s = (Except.ok u, sF)) :
    ∃ s1, body s = (Except.ok u, s1) ∧ sF = { s1 with tempFrontier := s.tempFrontier } := by
  unfold withTempRegisterScope at h
  rcases hb : body s with ⟨r, s1⟩
  rw [hb] at h
  cases r with
  | ok u2 =>
      cases u; cases u2
      exact ⟨s1, rfl, (congrArg Prod.snd h).symm⟩
  | error e => exact absurd (congrArg Prod.fst h) (by simp)

theorem SetBreakTarget_ok {lb : LoopBuilder} {t : Nat} {s sF : GenState} {u : Unit}
    (h : LoopBuilder.SetBreakTarget lb t s = (Except.ok u, sF)) :
    ∃ p, lookupBind t s.labelBinds = some p ∧
      sF = { s with labelBinds := (lb.breakLabel, p) :: s.labelBinds } := by
  unfold LoopBuilder.SetBreakTarget at h
  rcases hl : lookupBind t s.labelBinds with _ | p
  · rw [hl] at h
    exact absurd (congrArg Prod.fst h) (by simp)
  · rw [hl] at h
    exact ⟨p, rfl, (congrArg Prod.snd h).symm⟩

theorem SetContinueTarget_ok {lb : LoopBuilder} {t : Nat} {s sF : GenState} {u : Unit}
    (h : LoopBuilder.SetContinueTarget lb t s = (Except.ok u, sF)) :
    ∃ p, lookupBind t s.labelBinds = some p ∧
      sF = { s with labelBinds := (lb.continueLabel, p) :: s.labelBinds } := by
  unfold LoopBuilder.SetContinueTarget at h
  rcases hl : lookupBind t s.labelBinds with _ | p
  · rw [hl] at h
    exact absurd (congrArg Prod.fst h) (by simp)
  · rw [hl] at h
    exact ⟨p, rfl, (congrArg Prod.snd h).symm⟩

/-- Convenience form of the append-only property. -/
theorem Visit_appendOnly (info : FnContext) (a : Ast) (s : GenState) :
    ∃ t, (Visit info a s).2.instrs = s.instrs ++ t :=
  ((presVisit info a 0).1 s (Nat.zero_le _)).1

/-- Convenience form of frontier restoration on success. -/
theorem Visit_frontierOk (info : FnContext) (a : Ast) {s s1 : GenState} {u : Unit}
    (h : Visit info a s = (Except.ok u, s1)) : s1.tempFrontier = s.tempFrontier := by
  have := (presVisit info a 0).2 s (Nat.zero_le _) u (by rw [h])
  rwa [h] at this

/-- Unfolding equation of the VisitWhileStatement arm of the dispatcher. -/
theorem Visit_whileStmt_eq (info : FnContext) (id : Nat) (cond body : Ast) :
    Visit info (Ast.whileStmt id cond body) = (do
      let lb ← MakeLoopBuilder
      withControlScope ⟨id, lb.breakLabel, lb.continueLabel⟩ (do
        let bodyLabel ← newLabel
        let conditionLabel ← newLabel
        let doneLabel ← newLabel
        emit (Instr.jump conditionLabel)
        bindLabel bodyLabel
        Visit info body
        bindLabel conditionLabel
        Visit info cond
        emit (Instr.jumpIfTrue bodyLabel)
        bindLabel doneLabel
        LoopBuilder.SetBreakTarget lb doneLabel
        LoopBuilder.SetContinueTarget lb conditionLabel)) := rfl

/-- Unfolding equation of the VisitDoWhileStatement arm of the dispatcher. -/
theorem Visit_doWhile_eq (info : FnContext) (id : Nat) (body cond : Ast) :
    Visit info (Ast.doWhile id body cond) = (do
      let lb ← MakeLoopBuilder
      withControlScope ⟨id, lb.breakLabel, lb.continueLabel⟩ (do
        let bodyLabel ← newLabel
        let conditionLabel ← newLabel
        let doneLabel ← newLabel
        bindLabel bodyLabel
        Visit info body
        bindLabel conditionLabel
        Visit info cond
        emit (Instr.jumpIfTrue bodyLabel)
        bindLabel doneLabel
        LoopBuilder.SetBreakTarget lb doneLabel
        LoopBuilder.SetContinueTarget lb conditionLabel)) := rfl

/-- Unfolding equation of the VisitForStatement arm when a condition is
present. -/
theorem Visit_forStmt_some_eq (info : FnContext) (id : Nat) (ini nxt : OptAst)
    (c body : Ast) :
    Visit info (Ast.forStmt id ini (OptAst.someA c) nxt body) = (do
      let lb ← MakeLoopBuilder
      withControlScope ⟨id, lb.breakLabel, lb.continueLabel⟩ (do
        VisitIfPresent info ini
        let bodyLabel ← newLabel
        let conditionLabel ← newLabel
        let nextLabel ← newLabel
        let doneLabel ← newLabel
        emit (Instr.jump conditionLabel)
        bindLabel bodyLabel
        Visit info body
        bindLabel nextLabel
        VisitIfPresent info nxt
        (do bindLabel conditionLabel
            Visit info c
            emit (Instr.jumpIfTrue bodyLabel))
        bindLabel doneLabel
        LoopBuilder.SetBreakTarget lb doneLabel
        LoopBuilder.SetContinueTarget lb nextLabel)) := rfl

/-- Unfolding equation of the VisitProperty arm of the dispatcher. -/
theorem Visit_property_eq (info : FnContext) (obj : Ast) (superAccess : Bool)
    (key : PropKeyNode) (slot : Nat) :
    Visit info (Ast.property obj superAccess key slot) =
      withTempRegisterScope (do
        let objReg ← newRegister
        Visit info obj
        emit (Instr.storeAccumulatorInRegister objReg)
        VisitPropertyLoad info objReg superAccess key slot) := rfl

/-- Unfolding equation of the VisitAssignment arm for a named property
target. -/
theorem Visit_assignment_named_eq (info : FnContext) (isCompound : Bool)
    (obj value : Ast) (name pslot slot : Nat) :
    Visit info (Ast.assignment isCompound
        (Ast.property obj false (PropKeyNode.nameKey name) pslot) value slot) =
      withTempRegisterScope (do
        let object ← newRegister
        let keyReg ← newRegister
        Visit info obj
        emit (Instr.storeAccumulatorInRegister object)
        emit (Instr.loadLiteralConst name)
        emit (Instr.storeAccumulatorInRegister keyReg)
        (if isCompound then UNIMPLEMENTED else Visit info value)
        emit (Instr.storeNamedProperty object keyReg
                (info.feedbackIndex slot) info.languageMode)) := rfl

/-- Unfolding equation of the VisitAssignment arm for a keyed property
target. -/
theorem Visit_assignment_keyed_eq (info : FnContext) (isCompound : Bool)
    (obj kexpr value : Ast) (pslot slot : Nat) :
    Visit info (Ast.assignment isCompound
        (Ast.property obj false (PropKeyNode.exprKey kexpr) pslot) value slot) =
      withTempRegisterScope (do
        let object ← newRegister
        let keyReg ← newRegister
        Visit info obj
        emit (Instr.storeAccumulatorInRegister object)
        Visit info kexpr
        emit (Instr.storeAccumulatorInRegister keyReg)
        (if isCompound then UNIMPLEMENTED else Visit info value)
        emit (Instr.storeKeyedProperty object keyReg
                (info.feedbackIndex slot) info.languageMode)) := rfl

/-- Unfolding equation of the VisitAssignment arm for a variable target. -/
theorem Visit_assignment_varProxy_eq (info : FnContext) (isCompound : Bool)
    (v : Variable) (value : Ast) (slot : Nat) :
    Visit info (Ast.assignment isCompound (Ast.varProxy v) value slot) =
      withTempRegisterScope (do
        (if isCompound then UNIMPLEMENTED else Visit info value)
        (if v.location = VarLoc.localVar then
           emit (Instr.storeAccumulatorInRegister (Reg.reg v.index))
         else UNREACHABLE)) := rfl

/-- Unfolding equation of the VisitCall arm for a property call. -/
theorem Visit_call_property_eq (info : FnContext) (obj : Ast) (superAccess : Bool)
    (key : PropKeyNode) (pslot : Nat) (args : AstList) :
    Visit info (Ast.call CallType.propertyCall
        (Ast.property obj superAccess key pslot) args) =
      withTempRegisterScope (do
        let calleeReg ← newRegister
        let receiverReg ← newRegister
        (if superAccess then UNIMPLEMENTED
         else do
           Visit info obj
           emit (Instr.storeAccumulatorInRegister receiverReg)
           VisitPropertyLoad info receiverReg superAccess key pslot
           emit (Instr.storeAccumulatorInRegister calleeReg))
        VisitCallArgs info (regIndex receiverReg) args 0
        emit (Instr.call calleeReg receiverReg (lengthA args))) := rfl

/-- Unfolding equation of the VisitCall arm for a global call. -/
theorem Visit_call_global_eq (info : FnContext) (v : Variable) (args : AstList) :
    Visit info (Ast.call CallType.globalCall (Ast.varProxy v) args) =
      withTempRegisterScope (do
        let calleeReg ← newRegister
        let receiverReg ← newRegister
        (do emit Instr.loadUndefined
            emit (Instr.storeAccumulatorInRegister receiverReg)
            VisitVariableLoad v
            emit (Instr.storeAccumulatorInRegister calleeReg))
        VisitCallArgs info (regIndex receiverReg) args 0
        emit (Instr.call calleeReg receiverReg (lengthA args))) := rfl

/-- Unfolding equation of VisitPropertyLoad for a named key. -/
theorem VisitPropertyLoad_named_eq (info : FnContext) (obj : Reg) (name slot : Nat) :
    VisitPropertyLoad info obj false (PropKeyNode.nameKey name) slot = (do
      emit (Instr.loadLiteralConst name)
      emit (Instr.loadNamedProperty obj (info.feedbackIndex slot) info.languageMode)) := rfl

/-- Unfolding equation of VisitPropertyLoad for a keyed key. -/
theorem VisitPropertyLoad_keyed_eq (info : FnContext) (obj : Reg) (k : Ast) (slot : Nat) :
    VisitPropertyLoad info obj false (PropKeyNode.exprKey k) slot = (do
      Visit info k
      emit (Instr.loadKeyedProperty obj (info.feedbackIndex slot) info.languageMode)) := rfl

/-- Unfolding equation of the VisitCall argument loop. -/
theorem VisitCallArgs_cons_eq (info : FnContext) (receiverIdx : Nat) (a : Ast)
    (rest : AstList) (i : Nat) :
    VisitCallArgs info receiverIdx (AstList.consA a rest) i = (do
      Visit info a
      let arg ← newRegister
      (if regIndex arg - i = receiverIdx + 1 then do
         emit (Instr.storeAccumulatorInRegister arg)
         VisitCallArgs info receiverIdx rest (i + 1)
       else UNREACHABLE)) := rfl

/-- C10: lowering an empty statement emits no instruction and leaves the
whole lowering state (instruction sink, label bindings, fresh label
counter, temporary register frontier, and control scope chain) unchanged;
the rule succeeds with the state exactly as it found it. -/
theorem c10_emptyStatement_noop (info : FnContext) (s : GenState) :
    Visit info Ast.emptyStmt s = (Except.ok (), s) := rfl

/-- C7: a variable load of a parameter-class variable with resolved index i
emits a load of the accumulator from the register at parameter position
i + 1 (parameter position 0 is the receiver), and a local-class variable
with index i loads directly from register i. -/
theorem c7_variableLoad_registers (v : Variable) (s : GenState) :
    (v.location = VarLoc.parameter →
      VisitVariableLoad v s = (Except.ok (), { s with instrs := s.instrs ++
        [Instr.loadAccumulatorWithRegister (Reg.param (v.index + 1))] })) ∧
    (v.location = VarLoc.localVar →
      VisitVariableLoad v s = (Except.ok (), { s with instrs := s.instrs ++
        [Instr.loadAccumulatorWithRegister (Reg.reg v.index)] })) := by
  obtain ⟨loc, idx, g⟩ := v
  constructor
  · intro h
    cases h
    rfl
  · intro h
    cases h
    rfl

/-- Witness for C7 at concrete variables. -/
theorem c7_witness :
    VisitVariableLoad ⟨VarLoc.parameter, 2, false⟩ (initialState testInfo) =
      (Except.ok (), { initialState testInfo with
        instrs := (initialState testInfo).instrs ++
          [Instr.loadAccumulatorWithRegister (Reg.param (2 + 1))] }) ∧
    VisitVariableLoad ⟨VarLoc.localVar, 4, false⟩ (initialState testInfo) =
      (Except.ok (), { initialState testInfo with
        instrs := (initialState testInfo).instrs ++
          [Instr.loadAccumulatorWithRegister (Reg.reg 4)] }) :=
  ⟨(c7_variableLoad_registers ⟨VarLoc.parameter, 2, false⟩ (initialState testInfo)).1 rfl,
   (c7_variableLoad_registers ⟨VarLoc.localVar, 4, false⟩ (initialState testInfo)).2 rfl⟩

/-- C8: lowering is deterministic; two runs of MakeBytecode on the same
resolved tree and function context produce finalized programs whose
instruction sequences agree in operation kind and operand values (and whose
label bindings agree). -/
theorem c8_determinism (info : FnContext) (p1 p2 : BytecodeArray)
    (h1 : MakeBytecode info = Except.ok p1) (h2 : MakeBytecode info = Except.ok p2) :
    p1.instructions = p2.instructions ∧ p1.labelBinds = p2.labelBinds := by
  rw [h1] at h2
  injection h2 with h3
  subst h3
  exact ⟨rfl, rfl⟩

/-- Witness for C8 on a concrete compilation. -/
theorem c8_witness :
    MakeBytecode testInfo = Except.ok
      { instructions := [Instr.loadLiteralSmi 1, Instr.ret], labelBinds := [],
        parameterCount := 1, localsCount := 0 } ∧
    [Instr.loadLiteralSmi 1, Instr.ret] = [Instr.loadLiteralSmi 1, Instr.ret] :=
  ⟨rfl, (c8_determinism testInfo
      { instructions := [Instr.loadLiteralSmi 1, Instr.ret], labelBinds := [],
        parameterCount := 1, localsCount := 0 }
      { instructions := [Instr.loadLiteralSmi 1, Instr.ret], labelBinds := [],
        parameterCount := 1, localsCount := 0 } rfl rfl).1⟩

/-- C9: a successfully finalized program is tagged with the parameter count
(num_parameters_including_this) and the locals count (num_stack_slots)
given by the function context and scope. -/
theorem c9_output_tags (info : FnContext) (arr : BytecodeArray)
    (h : MakeBytecode info = Except.ok arr) :
    arr.parameterCount = info.numParametersIncludingThis ∧
    arr.localsCount = info.numStackSlots := by
  unfold MakeBytecode at h
  by_cases hf : info.isFunctionScope = true
  · rw [if_pos hf] at h
    rcases hr : (M.bind
        (match info.functionVar with
         | some v => VisitVariableDeclaration v
         | none => M.pure ())
        (fun _ => M.bind (VisitStatements info info.declarations)
          (fun _ => VisitStatements info info.body))) (initialState info) with ⟨r, s⟩
    rw [hr] at h
    cases r with
    | ok u =>
        injection h with h2
        rw [← h2]
        exact ⟨rfl, rfl⟩
    | error e => exact Except.noConfusion h
  · rw [if_neg hf] at h
    exact Except.noConfusion h

/-- Witness for C9 on a concrete compilation. -/
theorem c9_witness :
    ({ instructions := [Instr.loadLiteralSmi 1, Instr.ret], labelBinds := [],
       parameterCount := 1, localsCount := 0 } : BytecodeArray).parameterCount =
      testInfo.numParametersIncludingThis ∧
    ({ instructions := [Instr.loadLiteralSmi 1, Instr.ret], labelBinds := [],
       parameterCount := 1, localsCount := 0 } : BytecodeArray).localsCount =
      testInfo.numStackSlots :=
  c9_output_tags testInfo
    { instructions := [Instr.loadLiteralSmi 1, Instr.ret], labelBinds := [],
      parameterCount := 1, localsCount := 0 } rfl

/-- C6 (amended): every syntax-tree node kind not covered by a lowering
rule fails fast without emitting any instruction and without any state
change; the kinds handled by a bare UNIMPLEMENTED visitor fail with the
unsupported-construct signal, while spread and empty-parentheses nodes fail
with the internal-invariant signal UNREACHABLE instead (the two signals are
distinct constructors of the error type). -/
theorem c6_unsupported_faults (info : FnContext) :
    (∀ (k : UnsupExpr) (s : GenState),
      Visit info (Ast.unsupportedExpr k) s = (Except.error LowerError.unimplemented, s)) ∧
    (∀ (k : UnsupStmt) (s : GenState),
      Visit info (Ast.unsupportedStmt k) s = (Except.error LowerError.unimplemented, s)) ∧
    (∀ (e : Ast) (s : GenState),
      Visit info (Ast.spread e) s = (Except.error LowerError.unreachable, s)) ∧
    (∀ s : GenState,
      Visit info Ast.emptyParentheses s = (Except.error LowerError.unreachable, s)) ∧
    decide (LowerError.unreachable = LowerError.unimplemented) = false :=
  ⟨fun _ _ => rfl, fun _ _ => rfl, fun _ _ => rfl, fun _ => rfl, rfl⟩

/-- Counterexample to C6 as stated: a spread node fails with the
internal-invariant signal UNREACHABLE, not with the distinguishable
unsupported-construct signal UNIMPLEMENTED. -/
theorem c6_counterexample :
    Visit testInfo (Ast.spread (Ast.literal LitValue.undef)) (initialState testInfo) =
      (Except.error LowerError.unreachable, initialState testInfo) ∧
    decide (LowerError.unreachable = LowerError.unimplemented) = false :=
  ⟨rfl, rfl⟩

/-- C3: PerformCommand walks the control scope chain from the head outward;
each scope tests the target statement by identity against the construct it
guards, the first matching scope emits exactly one jump to its loop
skeleton label for the command (break label or continue label), and an
exhausted chain is the fatal internal error UNREACHABLE with nothing
emitted.  In particular, in nested loops the jump goes to the labels of the
innermost enclosing scope whose identity matches. -/
theorem c3_performCommand_resolution (cmd : Command) (target : Nat)
    (scopes : List CtrlScope) (s : GenState) :
    (∀ sc : CtrlScope, List.find? (fun c => c.stmtId == target) scopes = some sc →
      PerformCommand cmd target scopes s =
        (Except.ok (), { s with instrs := s.instrs ++ [Instr.jump (commandLabel cmd sc)] })) ∧
    (List.find? (fun c => c.stmtId == target) scopes = none →
      PerformCommand cmd target scopes s = (Except.error LowerError.unreachable, s)) := by
  induction scopes with
  | nil =>
      constructor
      · intro sc h
        exact absurd h (by simp)
      · intro _
        rfl
  | cons c rest ih =>
      constructor
      · intro sc h
        by_cases hc : c.stmtId = target
        · have hsc : sc = c := by
            rw [List.find?_cons_of_pos _ (by simpa using hc)] at h
            exact (Option.some.injEq _ _ ▸ h).symm
          rw [hsc]
          show M.bind (CtrlScope.Execute c cmd target) _ s = _
          unfold CtrlScope.Execute
          rw [if_pos hc.symm]
          cases cmd with
          | cmdBreak =>
              rw [mbind_step _ (show M.bind (emit (Instr.jump c.breakLabel))
                (fun _ => M.pure true) s =
                (Except.ok true, { s with instrs := s.instrs ++ [Instr.jump c.breakLabel] })
                from rfl)]
              rfl
          | cmdContinue =>
              rw [mbind_step _ (show M.bind (emit (Instr.jump c.continueLabel))
                (fun _ => M.pure true) s =
                (Except.ok true, { s with instrs := s.instrs ++ [Instr.jump c.continueLabel] })
                from rfl)]
              rfl
        · rw [List.find?_cons_of_neg _ (by simpa using hc)] at h
          show M.bind (CtrlScope.Execute c cmd target) _ s = _
          unfold CtrlScope.Execute
          rw [if_neg (fun he => hc he.symm)]
          rw [mbind_step _ (show (M.pure false : M Bool) s = (Except.ok false, s) from rfl)]
          exact ih.1 sc h
      · intro h
        by_cases hc : c.stmtId = target
        · rw [List.find?_cons_of_pos _ (by simpa using hc)] at h
          exact absurd h (by simp)
        · rw [List.find?_cons_of_neg _ (by simpa using hc)] at h
          show M.bind (CtrlScope.Execute c cmd target) _ s = _
          unfold CtrlScope.Execute
          rw [if_neg (fun he => hc he.symm)]
          rw [mbind_step _ (show (M.pure false : M Bool) s = (Except.ok false, s) from rfl)]
          exact ih.2 h

/-- Witness for C3: with two scopes guarding the same construct identity,
the break jumps to the innermost (head) scope labels; with no matching
scope the command is the fatal internal error and emits nothing. -/
theorem c3_witness :
    PerformCommand Command.cmdBreak 5 [⟨5, 10, 11⟩, ⟨5, 12, 13⟩] (initialState testInfo) =
      (Except.ok (), { initialState testInfo with
        instrs := (initialState testInfo).instrs ++ [Instr.jump (commandLabel Command.cmdBreak ⟨5, 10, 11⟩)] }) ∧
    PerformCommand Command.cmdContinue 7 [⟨5, 10, 11⟩] (initialState testInfo) =
      (Except.error LowerError.unreachable, initialState testInfo) :=
  ⟨(c3_performCommand_resolution Command.cmdBreak 5 [⟨5, 10, 11⟩, ⟨5, 12, 13⟩]
      (initialState testInfo)).1 ⟨5, 10, 11⟩ rfl,
   (c3_performCommand_resolution Command.cmdContinue 7 [⟨5, 10, 11⟩]
      (initialState testInfo)).2 rfl⟩

/-- Counterexample to C1 as stated: lowering a concrete while loop puts the
conditional jump-if-true immediately after the condition instructions with
no boolean coercion anywhere in the output (the if-statement rule, by
contrast, does emit CastAccumulatorToBoolean). -/
theorem c1_counterexample :
    Visit testInfo (Ast.whileStmt 0 (Ast.literal (LitValue.smi 1)) Ast.emptyStmt)
      (initialState testInfo) =
      (Except.ok (),
       { instrs := [Instr.jump 3, Instr.loadLiteralSmi 1, Instr.jumpIfTrue 2],
         labelBinds := [(1, 1), (0, 3), (4, 3), (3, 1), (2, 1)],
         nextLabel := 5, tempFrontier := 0, ctrlScopes := [] }) ∧
    decide (Instr.castAccumulatorToBoolean ∈
      [Instr.jump 3, Instr.loadLiteralSmi 1, Instr.jumpIfTrue 2]) = false :=
  ⟨rfl, rfl⟩

/-- C1 (amended): in all three loop forms (pre-test while, post-test
do-while, and counted for with a condition present), the lowering of the
loop condition is immediately followed by the conditional jump-if-true back
to the body label, with no boolean coercion emitted between the condition
and the jump: the final instruction sequence is exactly the instructions up
to and including the condition, extended by the single jump-if-true. -/
theorem c1_loop_condition_jump (info : FnContext) (id : Nat) (cond body : Ast)
    (ini nxt : OptAst) (s s' : GenState) :
    (Visit info (Ast.whileStmt id cond body) s = (Except.ok (), s') →
      ∃ sb sc bodyLabel, Visit info cond sb = (Except.ok (), sc) ∧
        s'.instrs = sc.instrs ++ [Instr.jumpIfTrue bodyLabel]) ∧
    (Visit info (Ast.doWhile id body cond) s = (Except.ok (), s') →
      ∃ sb sc bodyLabel, Visit info cond sb = (Except.ok (), sc) ∧
        s'.instrs = sc.instrs ++ [Instr.jumpIfTrue bodyLabel]) ∧
    (Visit info (Ast.forStmt id ini (OptAst.someA cond) nxt body) s = (Except.ok (), s') →
      ∃ sb sc bodyLabel, Visit info cond sb = (Except.ok (), sc) ∧
        s'.instrs = sc.instrs ++ [Instr.jumpIfTrue bodyLabel]) := by
  refine ⟨?_, ?_, ?_⟩
  · intro h
    rw [Visit_whileStmt_eq] at h
    simp only [mBind_def] at h
    rw [bind_MakeLoopBuilder_step] at h
    obtain ⟨s1, hin, hs'⟩ := withControlScope_ok h
    rw [bind_newLabel_step, bind_newLabel_step, bind_newLabel_step,
        bind_emit_step, bind_bindLabel_step] at hin
    obtain ⟨⟨⟩, sbody, hbody, hin⟩ := bind_ok hin
    rw [bind_bindLabel_step] at hin
    obtain ⟨⟨⟩, scond, hcond, hin⟩ := bind_ok hin
    rw [bind_emit_step, bind_bindLabel_step] at hin
    obtain ⟨⟨⟩, sY, hsbt, hin⟩ := bind_ok hin
    obtain ⟨p, hp, hsY⟩ := SetBreakTarget_ok hsbt
    obtain ⟨q, hq, hs1⟩ := SetContinueTarget_ok hin
    refine ⟨_, scond, s.nextLabel + 2, hcond, ?_⟩
    subst hs' hs1 hsY
    rfl
  · intro h
    rw [Visit_doWhile_eq] at h
    simp only [mBind_def] at h
    rw [bind_MakeLoopBuilder_step] at h
    obtain ⟨s1, hin, hs'⟩ := withControlScope_ok h
    rw [bind_newLabel_step, bind_newLabel_step, bind_newLabel_step,
        bind_bindLabel_step] at hin
    obtain ⟨⟨⟩, sbody, hbody, hin⟩ := bind_ok hin
    rw [bind_bindLabel_step] at hin
    obtain ⟨⟨⟩, scond, hcond, hin⟩ := bind_ok hin
    rw [bind_emit_step, bind_bindLabel_step] at hin
    obtain ⟨⟨⟩, sY, hsbt, hin⟩ := bind_ok hin
    obtain ⟨p, hp, hsY⟩ := SetBreakTarget_ok hsbt
    obtain ⟨q, hq, hs1⟩ := SetContinueTarget_ok hin
    refine ⟨_, scond, s.nextLabel + 2, hcond, ?_⟩
    subst hs' hs1 hsY
    rfl
  · intro h
    rw [Visit_forStmt_some_eq] at h
    simp only [mBind_def] at h
    rw [bind_MakeLoopBuilder_step] at h
    obtain ⟨s1, hin, hs'⟩ := withControlScope_ok h
    obtain ⟨⟨⟩, sInit, hInit, hin⟩ := bind_ok hin
    rw [bind_newLabel_step, bind_newLabel_step, bind_newLabel_step,
        bind_newLabel_step, bind_emit_step, bind_bindLabel_step] at hin
    obtain ⟨⟨⟩, sbody, hbody, hin⟩ := bind_ok hin
    rw [bind_bindLabel_step] at hin
    obtain ⟨⟨⟩, sStep, hStep, hin⟩ := bind_ok hin
    obtain ⟨⟨⟩, sB, hgrp, hin⟩ := bind_ok hin
    rw [bind_bindLabel_step] at hgrp
    obtain ⟨⟨⟩, scond, hcond, hgrp⟩ := bind_ok hgrp
    have hsB : sB = { scond with instrs := scond.instrs ++
        [Instr.jumpIfTrue (sInit.nextLabel)] } := (congrArg Prod.snd hgrp).symm
    rw [bind_bindLabel_step] at hin
    obtain ⟨⟨⟩, sY, hsbt, hin⟩ := bind_ok hin
    obtain ⟨p, hp, hsY⟩ := SetBreakTarget_ok hsbt
    obtain ⟨q, hq, hs1⟩ := SetContinueTarget_ok hin
    refine ⟨_, scond, sInit.nextLabel, hcond, ?_⟩
    subst hs' hs1 hsY hsB
    rfl

/-- Witness for C1 (amended) on a concrete while loop. -/
theorem c1_witness :
    ∃ sb sc bodyLabel,
      Visit testInfo (Ast.literal (LitValue.smi 1)) sb = (Except.ok (), sc) ∧
      ({ instrs := [Instr.jump 3, Instr.loadLiteralSmi 1, Instr.jumpIfTrue 2],
         labelBinds := [(1, 1), (0, 3), (4, 3), (3, 1), (2, 1)],
         nextLabel := 5, tempFrontier := 0, ctrlScopes := [] } : GenState).instrs =
        sc.instrs ++ [Instr.jumpIfTrue bodyLabel] :=
  (c1_loop_condition_jump testInfo 0 (Ast.literal (LitValue.smi 1)) Ast.emptyStmt
    OptAst.noneA OptAst.noneA (initialState testInfo)
    { instrs := [Instr.jump 3, Instr.loadLiteralSmi 1, Instr.jumpIfTrue 2],
      labelBinds := [(1, 1), (0, 3), (4, 3), (3, 1), (2, 1)],
      nextLabel := 5, tempFrontier := 0, ctrlScopes := [] }).1 rfl

/-- Fresh-label monotonicity of a visit, in hypothesis form. -/
theorem Visit_mono {info : FnContext} {a : Ast} {s s1 : GenState}
    {r : Except LowerError Unit} (h : Visit info a s = (r, s1)) :
    s.nextLabel ≤ s1.nextLabel := by
  have hx := ((presVisit info a 0).1 s (Nat.zero_le _)).2.1
  rwa [h] at hx

/-- Append-only property of a visit, in hypothesis form. -/
theorem Visit_prefix {info : FnContext} {a : Ast} {s s1 : GenState}
    {r : Except LowerError Unit} (h : Visit info a s = (r, s1)) :
    ∃ t, s1.instrs = s.instrs ++ t := by
  have hx := ((presVisit info a 0).1 s (Nat.zero_le _)).1
  rwa [h] at hx

/-- Label bindings of already-allocated labels are untouched by a visit. -/
theorem Visit_stable {info : FnContext} {a : Ast} {n : Nat} {s s1 : GenState}
    {r : Except LowerError Unit} (h : Visit info a s = (r, s1))
    (hn : n ≤ s.nextLabel) {l : Nat} (hl : l < n) :
    lookupBind l s1.labelBinds = lookupBind l s.labelBinds := by
  have hx := ((presVisit info a n).1 s hn).2.2.1 l hl
  rwa [h] at hx

/-- A successful visit restores the control-scope chain. -/
theorem Visit_ctrl {info : FnContext} {a : Ast} {s s1 : GenState} {u : Unit}
    (h : Visit info a s = (Except.ok u, s1)) : s1.ctrlScopes = s.ctrlScopes := by
  have hx := ((presVisit info a 0).1 s (Nat.zero_le _)).2.2.2 u (by rw [h])
  rwa [h] at hx

/-- Fresh-label monotonicity of an optional visit, in hypothesis form. -/
theorem VisitIfPresent_mono {info : FnContext} {o : OptAst} {s s1 : GenState}
    {r : Except LowerError Unit} (h : VisitIfPresent info o s = (r, s1)) :
    s.nextLabel ≤ s1.nextLabel := by
  have hx := ((presVisitIfPresent info o 0).1 s (Nat.zero_le _)).2.1
  rwa [h] at hx

/-- Append-only property of an optional visit, in hypothesis form. -/
theorem VisitIfPresent_prefix {info : FnContext} {o : OptAst} {s s1 : GenState}
    {r : Except LowerError Unit} (h : VisitIfPresent info o s = (r, s1)) :
    ∃ t, s1.instrs = s.instrs ++ t := by
  have hx := ((presVisitIfPresent info o 0).1 s (Nat.zero_le _)).1
  rwa [h] at hx

/-- Label bindings of already-allocated labels are untouched by an optional
visit. -/
theorem VisitIfPresent_stable {info : FnContext} {o : OptAst} {n : Nat}
    {s s1 : GenState} {r : Except LowerError Unit}
    (h : VisitIfPresent info o s = (r, s1)) (hn : n ≤ s.nextLabel) {l : Nat}
    (hl : l < n) : lookupBind l s1.labelBinds = lookupBind l s.labelBinds := by
  have hx := ((presVisitIfPresent info o n).1 s hn).2.2.1 l hl
  rwa [h] at hx

/-- A successful optional visit restores the control-scope chain. -/
theorem VisitIfPresent_ctrl {info : FnContext} {o : OptAst} {s s1 : GenState}
    {u : Unit} (h : VisitIfPresent info o s = (Except.ok u, s1)) :
    s1.ctrlScopes = s.ctrlScopes := by
  have hx := ((presVisitIfPresent info o 0).1 s (Nat.zero_le _)).2.2.2 u (by rw [h])
  rwa [h] at hx

/-- Looking up a label at the head of the binding list. -/
theorem lookupBind_cons_self (l p : Nat) (rest : List (Nat × Nat)) :
    lookupBind l ((l, p) :: rest) = some p := by
  simp [lookupBind]

/-- Looking up a label past a non-matching head binding. -/
theorem lookupBind_cons_ne {l l2 : Nat} (p : Nat) (rest : List (Nat × Nat))
    (h : l ≠ l2) : lookupBind l ((l2, p) :: rest) = lookupBind l rest := by
  simp only [lookupBind]
  rw [if_neg h]

/-- The VisitCall argument loop, entered with the temporary frontier at
receiverIdx + 1 + i (the register right after the receiver and the first i
arguments), appends exactly one evaluation segment plus one store per
argument, the store of argument j targeting register receiverIdx + 1 + j,
and leaves the frontier past the last argument register. -/
theorem VisitCallArgs_argSeq (info : FnContext) (receiverIdx : Nat) :
    ∀ (args : AstList) (i : Nat) (s sF : GenState),
      s.tempFrontier = receiverIdx + 1 + i →
      VisitCallArgs info receiverIdx args i s = (Except.ok (), sF) →
      (∃ seg, sF.instrs = s.instrs ++ seg ∧
        ArgSeq receiverIdx i (i + lengthA args) seg) ∧
      sF.tempFrontier = receiverIdx + 1 + (i + lengthA args)
  | AstList.nilA, i, s, sF, hfr, h => by
      have hs : sF = s := (congrArg Prod.snd h).symm
      subst hs
      exact ⟨⟨[], by simp, ArgSeq.done i⟩, by simpa [lengthA] using hfr⟩
  | AstList.consA a rest, i, s, sF, hfr, h => by
      rw [VisitCallArgs_cons_eq] at h
      simp only [mBind_def] at h
      obtain ⟨⟨⟩, s1, ha, h⟩ := bind_ok h
      rw [bind_newRegister_step] at h
      have hf1 : s1.tempFrontier = s.tempFrontier := Visit_frontierOk info a ha
      rw [if_pos (show regIndex (Reg.reg s1.tempFrontier) - i = receiverIdx + 1 by
        simp only [regIndex]; omega)] at h
      replace h : VisitCallArgs info receiverIdx rest (i + 1)
          { s1 with tempFrontier := s1.tempFrontier + 1,
                    instrs := s1.instrs ++
                      [Instr.storeAccumulatorInRegister (Reg.reg s1.tempFrontier)] }
          = (Except.ok (), sF) := h
      obtain ⟨⟨seg, hseg, harg⟩, hfrF⟩ :=
        VisitCallArgs_argSeq info receiverIdx rest (i + 1)
          { s1 with tempFrontier := s1.tempFrontier + 1,
                    instrs := s1.instrs ++
                      [Instr.storeAccumulatorInRegister (Reg.reg s1.tempFrontier)] }
          sF (by show s1.tempFrontier + 1 = receiverIdx + 1 + (i + 1); omega) h
      obtain ⟨ta, hta⟩ := Visit_prefix ha
      have hlen : lengthA (AstList.consA a rest) = lengthA rest + 1 := rfl
      refine ⟨⟨ta ++ Instr.storeAccumulatorInRegister (Reg.reg (receiverIdx + 1 + i))
          :: seg, ?_, ?_⟩, by omega⟩
      · show sF.instrs = s.instrs ++ _
        rw [hseg]
        show s1.instrs ++
            [Instr.storeAccumulatorInRegister (Reg.reg s1.tempFrontier)] ++ seg = _
        rw [hta, show s1.tempFrontier = receiverIdx + 1 + i by omega]
        simp
      · have harg2 : ArgSeq receiverIdx (i + 1) (i + lengthA (AstList.consA a rest)) seg := by
          rw [show i + lengthA (AstList.consA a rest) = (i + 1) + lengthA rest by
            rw [hlen]; omega]
          exact harg
        exact ArgSeq.step i _ ta seg harg2

/-- Append-only property of a variable load, in hypothesis form. -/
theorem VisitVariableLoad_prefix {v : Variable} {s s1 : GenState}
    {r : Except LowerError Unit} (h : VisitVariableLoad v s = (r, s1)) :
    ∃ t, s1.instrs = s.instrs ++ t := by
  have hx := ((presL_VisitVariableLoad 0 v).1 s (Nat.zero_le _)).1
  rwa [h] at hx

/-- A successful variable load preserves the temporary frontier. -/
theorem VisitVariableLoad_frontierOk {v : Variable} {s s1 : GenState} {u : Unit}
    (h : VisitVariableLoad v s = (Except.ok u, s1)) :
    s1.tempFrontier = s.tempFrontier := by
  have hx := (presL_VisitVariableLoad 0 v).2 s (Nat.zero_le _) u (by rw [h])
  rwa [h] at hx

/-- Append-only property of a property load, in hypothesis form. -/
theorem VisitPropertyLoad_prefix {info : FnContext} {obj : Reg} {sa : Bool}
    {key : PropKeyNode} {slot : Nat} {s s1 : GenState} {r : Except LowerError Unit}
    (h : VisitPropertyLoad info obj sa key slot s = (r, s1)) :
    ∃ t, s1.instrs = s.instrs ++ t := by
  have hx := ((presVisitPropertyLoad info obj sa key slot 0).1 s (Nat.zero_le _)).1
  rwa [h] at hx

/-- A successful property load preserves the temporary frontier. -/
theorem VisitPropertyLoad_frontierOk {info : FnContext} {obj : Reg} {sa : Bool}
    {key : PropKeyNode} {slot : Nat} {s s1 : GenState} {u : Unit}
    (h : VisitPropertyLoad info obj sa key slot s = (Except.ok u, s1)) :
    s1.tempFrontier = s.tempFrontier := by
  have hx := (presVisitPropertyLoad info obj sa key slot 0).2 s (Nat.zero_le _) u (by rw [h])
  rwa [h] at hx

/-- C5: on both supported call shapes (a global call through a variable
proxy and a non-super property call), VisitCall allocates the callee
register at the entry frontier and the receiver register immediately after
it, and a successful lowering appends a prologue, then per-argument
segments in which argument j is stored into the register at index
receiver-index + 1 + j (ArgSeq, mirroring the DCHECK arithmetic of the
argument loop), and finally a call instruction whose callee, receiver and
argument registers form the contiguous run starting at the entry
frontier. -/
theorem c5_call_register_contiguity (info : FnContext) (args : AstList)
    (s s' : GenState) :
    (∀ (v : Variable),
      Visit info (Ast.call CallType.globalCall (Ast.varProxy v) args) s
          = (Except.ok (), s') →
      ∃ prologue seg,
        s'.instrs = s.instrs ++ prologue ++ seg ++
          [Instr.call (Reg.reg s.tempFrontier) (Reg.reg (s.tempFrontier + 1))
            (lengthA args)] ∧
        ArgSeq (s.tempFrontier + 1) 0 (lengthA args) seg) ∧
    (∀ (obj : Ast) (key : PropKeyNode) (pslot : Nat),
      Visit info (Ast.call CallType.propertyCall
          (Ast.property obj false key pslot) args) s = (Except.ok (), s') →
      ∃ prologue seg,
        s'.instrs = s.instrs ++ prologue ++ seg ++
          [Instr.call (Reg.reg s.tempFrontier) (Reg.reg (s.tempFrontier + 1))
            (lengthA args)] ∧
        ArgSeq (s.tempFrontier + 1) 0 (lengthA args) seg) := by
  constructor
  · intro v h
    rw [Visit_call_global_eq] at h
    obtain ⟨s1, hbody, hs'⟩ := withTempRegisterScope_ok h
    simp only [mBind_def] at hbody
    rw [bind_newRegister_step, bind_newRegister_step] at hbody
    obtain ⟨⟨⟩, s3, hgrp, h2⟩ := bind_ok hbody
    rw [bind_emit_step, bind_emit_step] at hgrp
    obtain ⟨⟨⟩, s4, hv, hemit⟩ := bind_ok hgrp
    obtain ⟨tv, htv⟩ := VisitVariableLoad_prefix hv
    have hfv : s4.tempFrontier = s.tempFrontier + 2 :=
      (VisitVariableLoad_frontierOk hv).trans rfl
    have hs3 : s3 = { s4 with instrs := s4.instrs ++
        [Instr.storeAccumulatorInRegister (Reg.reg s.tempFrontier)] } :=
      (congrArg Prod.snd hemit).symm
    have hfr3 : s3.tempFrontier = s.tempFrontier + 2 := by
      rw [hs3]; exact hfv
    obtain ⟨⟨⟩, s5, hargs, hcall⟩ := bind_ok h2
    obtain ⟨⟨seg, hseg, harg⟩, _⟩ :=
      VisitCallArgs_argSeq info (s.tempFrontier + 1) args 0 s3 s5
        (by omega) hargs
    have hs1 : s1 = { s5 with instrs := s5.instrs ++
        [Instr.call (Reg.reg s.tempFrontier) (Reg.reg (s.tempFrontier + 1))
          (lengthA args)] } :=
      (congrArg Prod.snd hcall).symm
    have e4 : s4.instrs = ((s.instrs ++ [Instr.loadUndefined]) ++
        [Instr.storeAccumulatorInRegister (Reg.reg (s.tempFrontier + 1))]) ++ tv := htv
    refine ⟨[Instr.loadUndefined,
        Instr.storeAccumulatorInRegister (Reg.reg (s.tempFrontier + 1))] ++ tv ++
        [Instr.storeAccumulatorInRegister (Reg.reg s.tempFrontier)], seg, ?_, ?_⟩
    · have e1 : s'.instrs = s1.instrs := by rw [hs']
      have e2 : s1.instrs = s5.instrs ++
          [Instr.call (Reg.reg s.tempFrontier) (Reg.reg (s.tempFrontier + 1))
            (lengthA args)] := by rw [hs1]
      have e3 : s3.instrs = s4.instrs ++
          [Instr.storeAccumulatorInRegister (Reg.reg s.tempFrontier)] := by rw [hs3]
      rw [e1, e2, hseg, e3, e4]
      simp
    · have hz := harg
      rw [Nat.zero_add] at hz
      exact hz
  · intro obj key pslot h
    rw [Visit_call_property_eq] at h
    obtain ⟨s1, hbody, hs'⟩ := withTempRegisterScope_ok h
    simp only [mBind_def] at hbody
    rw [bind_newRegister_step, bind_newRegister_step] at hbody
    obtain ⟨⟨⟩, s3, hgrp, h2⟩ := bind_ok hbody
    rw [if_neg (by decide)] at hgrp
    obtain ⟨⟨⟩, sO, hobj, hgrp⟩ := bind_ok hgrp
    obtain ⟨tO, hto⟩ := Visit_prefix hobj
    have hfo : sO.tempFrontier = s.tempFrontier + 2 :=
      (Visit_frontierOk info obj hobj).trans rfl
    rw [bind_emit_step] at hgrp
    obtain ⟨⟨⟩, s4, hpl, hemit⟩ := bind_ok hgrp
    obtain ⟨tp, htp⟩ := VisitPropertyLoad_prefix hpl
    have hfp : s4.tempFrontier = s.tempFrontier + 2 := by
      rw [VisitPropertyLoad_frontierOk hpl]; exact hfo
    have hs3 : s3 = { s4 with instrs := s4.instrs ++
        [Instr.storeAccumulatorInRegister (Reg.reg s.tempFrontier)] } :=
      (congrArg Prod.snd hemit).symm
    have hfr3 : s3.tempFrontier = s.tempFrontier + 2 := by
      rw [hs3]; exact hfp
    obtain ⟨⟨⟩, s5, hargs, hcall⟩ := bind_ok h2
    obtain ⟨⟨seg, hseg, harg⟩, _⟩ :=
      VisitCallArgs_argSeq info (s.tempFrontier + 1) args 0 s3 s5
        (by omega) hargs
    have hs1 : s1 = { s5 with instrs := s5.instrs ++
        [Instr.call (Reg.reg s.tempFrontier) (Reg.reg (s.tempFrontier + 1))
          (lengthA args)] } :=
      (congrArg Prod.snd hcall).symm
    refine ⟨tO ++ [Instr.storeAccumulatorInRegister (Reg.reg (s.tempFrontier + 1))] ++
        tp ++ [Instr.storeAccumulatorInRegister (Reg.reg s.tempFrontier)], seg, ?_, ?_⟩
    · have e1 : s'.instrs = s1.instrs := by rw [hs']
      have e2 : s1.instrs = s5.instrs ++
          [Instr.call (Reg.reg s.tempFrontier) (Reg.reg (s.tempFrontier + 1))
            (lengthA args)] := by rw [hs1]
      have e3 : s3.instrs = s4.instrs ++
          [Instr.storeAccumulatorInRegister (Reg.reg s.tempFrontier)] := by rw [hs3]
      have e4 : s4.instrs = (sO.instrs ++
          [Instr.storeAccumulatorInRegister (Reg.reg (s.tempFrontier + 1))]) ++ tp := htp
      have e5 : sO.instrs = s.instrs ++ tO := hto
      rw [e1, e2, hseg, e3, e4, e5]
      simp
    · have hz := harg
      rw [Nat.zero_add] at hz
      exact hz

/-- Closed witness for the C5 theorem: a global call f(1) lowered from
the initial state; the callee lands in register 0, the receiver in
register 1 and the argument in register 2, followed by the call
instruction over that contiguous run. -/
theorem c5_witness :
    Visit testInfo
        (Ast.call CallType.globalCall
          (Ast.varProxy ⟨VarLoc.global, 0, true⟩)
          (AstList.consA (Ast.literal (LitValue.smi 1)) AstList.nilA))
        (initialState testInfo) =
      (Except.ok (),
        { instrs := [Instr.loadUndefined,
            Instr.storeAccumulatorInRegister (Reg.reg 1),
            Instr.loadGlobal 0,
            Instr.storeAccumulatorInRegister (Reg.reg 0),
            Instr.loadLiteralSmi 1,
            Instr.storeAccumulatorInRegister (Reg.reg 2),
            Instr.call (Reg.reg 0) (Reg.reg 1) 1],
          labelBinds := [], nextLabel := 0, tempFrontier := 0, ctrlScopes := [] }) ∧
    ∃ prologue seg,
      [Instr.loadUndefined,
        Instr.storeAccumulatorInRegister (Reg.reg 1),
        Instr.loadGlobal 0,
        Instr.storeAccumulatorInRegister (Reg.reg 0),
        Instr.loadLiteralSmi 1,
        Instr.storeAccumulatorInRegister (Reg.reg 2),
        Instr.call (Reg.reg 0) (Reg.reg 1) 1] =
          [] ++ prologue ++ seg ++ [Instr.call (Reg.reg 0) (Reg.reg 1) 1] ∧
      ArgSeq 1 0 1 seg :=
  ⟨rfl,
    (c5_call_register_contiguity testInfo
      (AstList.consA (Ast.literal (LitValue.smi 1)) AstList.nilA)
      (initialState testInfo)
      { instrs := [Instr.loadUndefined,
          Instr.storeAccumulatorInRegister (Reg.reg 1),
          Instr.loadGlobal 0,
          Instr.storeAccumulatorInRegister (Reg.reg 0),
          Instr.loadLiteralSmi 1,
          Instr.storeAccumulatorInRegister (Reg.reg 2),
          Instr.call (Reg.reg 0) (Reg.reg 1) 1],
        labelBinds := [], nextLabel := 0, tempFrontier := 0,
        ctrlScopes := [] }).1 ⟨VarLoc.global, 0, true⟩ rfl⟩

/-- C4: in a successful lowering of a counted for-loop with a condition,
the body runs under the control scope of this statement whose break label
is the loop builder's first fresh label and whose continue label is the
second; the next label (allocated as the third label after the init
segment) is bound at the position right after the body instructions and
right before the step segment, the condition segment follows the step
segment, and the back-jump closes the loop; the continue label resolves to
the bound next position (before the step, not the condition position), and
the break label resolves to the done position after the whole loop. -/
theorem c4_forStmt_continue_step_break_done (info : FnContext) (id : Nat)
    (ini nxt : OptAst) (c body : Ast) (s s' : GenState)
    (h : Visit info (Ast.forStmt id ini (OptAst.someA c) nxt body) s
      = (Except.ok (), s')) :
    ∃ (sInit sPre sBody sStep sCond : GenState) (stepSeg condSeg : List Instr),
      VisitIfPresent info ini
        { s with nextLabel := s.nextLabel + 2,
                 ctrlScopes := CtrlScope.mk id s.nextLabel (s.nextLabel + 1)
                   :: s.ctrlScopes } = (Except.ok (), sInit) ∧
      sPre.ctrlScopes = CtrlScope.mk id s.nextLabel (s.nextLabel + 1)
        :: s.ctrlScopes ∧
      Visit info body sPre = (Except.ok (), sBody) ∧
      VisitIfPresent info nxt
        { sBody with labelBinds :=
            (sInit.nextLabel + 2, sBody.instrs.length) :: sBody.labelBinds }
        = (Except.ok (), sStep) ∧
      sStep.instrs = sBody.instrs ++ stepSeg ∧
      Visit info c
        { sStep with labelBinds :=
            (sInit.nextLabel + 1, sStep.instrs.length) :: sStep.labelBinds }
        = (Except.ok (), sCond) ∧
      sCond.instrs = sStep.instrs ++ condSeg ∧
      s'.instrs = sCond.instrs ++ [Instr.jumpIfTrue sInit.nextLabel] ∧
      lookupBind (s.nextLabel + 1) s'.labelBinds = some sBody.instrs.length ∧
      lookupBind s.nextLabel s'.labelBinds = some s'.instrs.length := by
  rw [Visit_forStmt_some_eq] at h
  simp only [mBind_def] at h
  rw [bind_MakeLoopBuilder_step] at h
  obtain ⟨s1, hin, hs'⟩ := withControlScope_ok h
  obtain ⟨⟨⟩, sInit, hInit, hin⟩ := bind_ok hin
  rw [bind_newLabel_step, bind_newLabel_step, bind_newLabel_step,
      bind_newLabel_step, bind_emit_step, bind_bindLabel_step] at hin
  obtain ⟨⟨⟩, sBody, hBody, hin⟩ := bind_ok hin
  rw [bind_bindLabel_step] at hin
  obtain ⟨⟨⟩, sStep, hStep, hin⟩ := bind_ok hin
  obtain ⟨⟨⟩, sB, hgrp, hin⟩ := bind_ok hin
  rw [bind_bindLabel_step] at hgrp
  obtain ⟨⟨⟩, sCond, hCond, hgrp⟩ := bind_ok hgrp
  have hsB : sB = { sCond with instrs :=
      sCond.instrs ++ [Instr.jumpIfTrue sInit.nextLabel] } :=
    (congrArg Prod.snd hgrp).symm
  rw [bind_bindLabel_step] at hin
  obtain ⟨⟨⟩, sY, hsbt, hin⟩ := bind_ok hin
  obtain ⟨p, hp, hsY⟩ := SetBreakTarget_ok hsbt
  obtain ⟨q, hq, hs1⟩ := SetContinueTarget_ok hin
  have hm0 : s.nextLabel + 2 ≤ sInit.nextLabel := VisitIfPresent_mono hInit
  have hm1 : sInit.nextLabel + 4 ≤ sBody.nextLabel := Visit_mono hBody
  have hm2 : sBody.nextLabel ≤ sStep.nextLabel := by
    have hx := VisitIfPresent_mono hStep
    exact hx
  have hm3 : sStep.nextLabel ≤ sCond.nextLabel := by
    have hx := Visit_mono hCond
    exact hx
  obtain ⟨stepSeg, hstepSeg⟩ : ∃ t, sStep.instrs = sBody.instrs ++ t := by
    have hx := VisitIfPresent_prefix hStep
    exact hx
  obtain ⟨condSeg, hcondSeg⟩ : ∃ t, sCond.instrs = sStep.instrs ++ t := by
    have hx := Visit_prefix hCond
    exact hx
  have hst1 : lookupBind (sInit.nextLabel + 2) sStep.labelBinds =
      some sBody.instrs.length := by
    have hx : lookupBind (sInit.nextLabel + 2) sStep.labelBinds =
        lookupBind (sInit.nextLabel + 2)
          ((sInit.nextLabel + 2, sBody.instrs.length) :: sBody.labelBinds) :=
      VisitIfPresent_stable hStep
        (show sInit.nextLabel + 4 ≤ sBody.nextLabel from hm1) (by omega)
    rw [hx, lookupBind_cons_self]
  have hst2 : lookupBind (sInit.nextLabel + 2) sCond.labelBinds =
      some sBody.instrs.length := by
    have hx : lookupBind (sInit.nextLabel + 2) sCond.labelBinds =
        lookupBind (sInit.nextLabel + 2)
          ((sInit.nextLabel + 1, sStep.instrs.length) :: sStep.labelBinds) :=
      Visit_stable hCond (show sInit.nextLabel + 4 ≤ sStep.nextLabel by omega)
        (by omega)
    rw [hx, lookupBind_cons_ne _ _ (by omega), hst1]
  have hq2 : q = sBody.instrs.length := by
    rw [hsY] at hq
    replace hq : lookupBind (sInit.nextLabel + 2)
        ((s.nextLabel, p) :: (sInit.nextLabel + 3, sB.instrs.length)
          :: sB.labelBinds) = some q := hq
    rw [lookupBind_cons_ne _ _ (by omega), lookupBind_cons_ne _ _ (by omega)] at hq
    rw [hsB] at hq
    replace hq : lookupBind (sInit.nextLabel + 2) sCond.labelBinds = some q := hq
    rw [hst2] at hq
    exact (Option.some.inj hq).symm
  have hp2 : p = sB.instrs.length := by
    replace hp : lookupBind (sInit.nextLabel + 3)
        ((sInit.nextLabel + 3, sB.instrs.length) :: sB.labelBinds) = some p := hp
    rw [lookupBind_cons_self] at hp
    exact (Option.some.inj hp).symm
  have hcI : sInit.ctrlScopes = CtrlScope.mk id s.nextLabel (s.nextLabel + 1)
      :: s.ctrlScopes := VisitIfPresent_ctrl hInit
  have hfin : s'.instrs = sCond.instrs ++ [Instr.jumpIfTrue sInit.nextLabel] := by
    rw [hs', hs1, hsY, hsB]
  have hcontinue : lookupBind (s.nextLabel + 1) s'.labelBinds =
      some sBody.instrs.length := by
    have hx : lookupBind (s.nextLabel + 1) s'.labelBinds =
        lookupBind (s.nextLabel + 1)
          ((s.nextLabel + 1, q) :: (s.nextLabel, p) ::
            (sInit.nextLabel + 3, sB.instrs.length) :: sB.labelBinds) := by
      rw [hs', hs1, hsY]
    rw [hx, lookupBind_cons_self, hq2]
  have hbreak : lookupBind s.nextLabel s'.labelBinds = some s'.instrs.length := by
    have hx : lookupBind s.nextLabel s'.labelBinds =
        lookupBind s.nextLabel
          ((s.nextLabel + 1, q) :: (s.nextLabel, p) ::
            (sInit.nextLabel + 3, sB.instrs.length) :: sB.labelBinds) := by
      rw [hs', hs1, hsY]
    have hlen : s'.instrs.length = sB.instrs.length := by
      rw [hs', hs1, hsY]
    rw [hx, lookupBind_cons_ne _ _ (by omega), lookupBind_cons_self, hp2, hlen]
  exact ⟨sInit,
    { instrs := sInit.instrs ++ [Instr.jump (sInit.nextLabel + 1)],
      labelBinds := (sInit.nextLabel,
          (sInit.instrs ++ [Instr.jump (sInit.nextLabel + 1)]).length)
        :: sInit.labelBinds,
      nextLabel := sInit.nextLabel + 4,
      tempFrontier := sInit.tempFrontier,
      ctrlScopes := sInit.ctrlScopes },
    sBody, sStep, sCond, stepSeg, condSeg, hInit, hcI, hBody,
    hStep, hstepSeg, hCond, hcondSeg, hfin, hcontinue, hbreak⟩

/-- Closed witness for the C4 theorem: the loop
for (; 0; ) {} lowered from the initial state; applying the theorem at
this input yields the break/continue resolutions of its conclusion
(continue label 1 resolves to the body-end position, break label 0 to the
loop-end position). -/
theorem c4_witness :
    Visit testInfo
      (Ast.forStmt 0 OptAst.noneA
        (OptAst.someA (Ast.literal (LitValue.smi 0)))
        OptAst.noneA Ast.emptyStmt)
      (initialState testInfo) =
    (Except.ok (),
      { instrs := [Instr.jump 3, Instr.loadLiteralSmi 0, Instr.jumpIfTrue 2],
        labelBinds := [(1, 1), (0, 3), (5, 3), (3, 1), (4, 1), (2, 1)],
        nextLabel := 6, tempFrontier := 0, ctrlScopes := [] }) ∧
    ∃ sBody : GenState,
      lookupBind 1 [(1, 1), (0, 3), (5, 3), (3, 1), (4, 1), (2, 1)]
        = some sBody.instrs.length ∧
      lookupBind 0 [(1, 1), (0, 3), (5, 3), (3, 1), (4, 1), (2, 1)] = some 3 := by
  refine ⟨rfl, ?_⟩
  obtain ⟨sInit, sPre, sBody, sStep, sCond, stepSeg, condSeg,
      _, _, _, _, _, _, _, _, hcont, hbrk⟩ :=
    c4_forStmt_continue_step_break_done testInfo 0 OptAst.noneA
      OptAst.noneA (Ast.literal (LitValue.smi 0))
      Ast.emptyStmt (initialState testInfo)
      { instrs := [Instr.jump 3, Instr.loadLiteralSmi 0, Instr.jumpIfTrue 2],
        labelBinds := [(1, 1), (0, 3), (5, 3), (3, 1), (4, 1), (2, 1)],
        nextLabel := 6, tempFrontier := 0, ctrlScopes := [] } rfl
  exact ⟨sBody, hcont, hbrk⟩

/-- A failing body passes through the temporary register scope unchanged:
the C++ abort hands the process the state as the failure left it. -/
theorem withTempRegisterScope_error {body : M Unit} {s s1 : GenState}
    {e : LowerError} (h : body s = (Except.error e, s1)) :
    withTempRegisterScope body s = (Except.error e, s1) := by
  unfold withTempRegisterScope
  rw [h]

/-- C2 (amended): failing lowering rules split into two families. The
rules that reject their construct up front (unsupported expression and
statement kinds, spread and empty-parentheses nodes) fail with the state
exactly as they found it; but the rules that discover the unsupported part
midway emit instructions before failing: a scoped block with context
locals emits EnterBlock first, a super property load emits the object
evaluation and its store first, and a compound named-property assignment
emits the object evaluation, its store, the key constant and the key store
before failing on the compound part. -/
theorem c2_failure_emission (info : FnContext) :
    (∀ (k : UnsupExpr) (s : GenState),
      Visit info (Ast.unsupportedExpr k) s
        = (Except.error LowerError.unimplemented, s)) ∧
    (∀ (k : UnsupStmt) (s : GenState),
      Visit info (Ast.unsupportedStmt k) s
        = (Except.error LowerError.unimplemented, s)) ∧
    (∀ (e : Ast) (s : GenState),
      Visit info (Ast.spread e) s = (Except.error LowerError.unreachable, s)) ∧
    (∀ s : GenState,
      Visit info Ast.emptyParentheses s
        = (Except.error LowerError.unreachable, s)) ∧
    (∀ (n : Nat) (decls stmts : AstList) (s : GenState), 0 < n →
      Visit info (Ast.block true n decls stmts) s =
        (Except.error LowerError.unimplemented,
          { s with instrs := s.instrs ++ [Instr.enterBlock] })) ∧
    (∀ (obj : Ast) (key : PropKeyNode) (slot : Nat) (s sO : GenState),
      Visit info obj { s with tempFrontier := s.tempFrontier + 1 }
          = (Except.ok (), sO) →
      Visit info (Ast.property obj true key slot) s =
        (Except.error LowerError.unimplemented,
          { sO with instrs := sO.instrs ++
              [Instr.storeAccumulatorInRegister (Reg.reg s.tempFrontier)] })) ∧
    (∀ (obj value : Ast) (name pslot slot : Nat) (s sO : GenState),
      Visit info obj { s with tempFrontier := s.tempFrontier + 2 }
          = (Except.ok (), sO) →
      Visit info (Ast.assignment true
          (Ast.property obj false (PropKeyNode.nameKey name) pslot) value slot) s =
        (Except.error LowerError.unimplemented,
          { sO with instrs := sO.instrs ++
              [Instr.storeAccumulatorInRegister (Reg.reg s.tempFrontier),
               Instr.loadLiteralConst name,
               Instr.storeAccumulatorInRegister
                 (Reg.reg (s.tempFrontier + 1))] })) := by
  refine ⟨fun k s => rfl, fun k s => rfl, fun e s => rfl, fun s => rfl,
    ?_, ?_, ?_⟩
  · intro n decls stmts s hn
    rw [Visit_block_eq]
    simp only [mBind_def]
    rw [bind_emit_step, if_pos (by trivial), if_pos hn]
    rfl
  · intro obj key slot s sO hobj
    rw [Visit_property_eq]
    refine withTempRegisterScope_error ?_
    show M.bind (Visit info obj) (fun _ =>
        M.bind (emit (Instr.storeAccumulatorInRegister (Reg.reg s.tempFrontier)))
          (fun _ => VisitPropertyLoad info (Reg.reg s.tempFrontier) true key slot))
      { s with tempFrontier := s.tempFrontier + 1 } = _
    rw [mbind_step _ hobj, bind_emit_step]
    cases key <;> rfl
  · intro obj value name pslot slot s sO hobj
    rw [Visit_assignment_named_eq]
    refine withTempRegisterScope_error ?_
    show M.bind (Visit info obj) (fun _ =>
        M.bind (emit (Instr.storeAccumulatorInRegister (Reg.reg s.tempFrontier)))
          (fun _ =>
            M.bind (emit (Instr.loadLiteralConst name)) (fun _ =>
              M.bind (emit (Instr.storeAccumulatorInRegister
                  (Reg.reg (s.tempFrontier + 1)))) (fun _ =>
                M.bind (UNIMPLEMENTED : M Unit) (fun _ =>
                  emit (Instr.storeNamedProperty (Reg.reg s.tempFrontier)
                    (Reg.reg (s.tempFrontier + 1)) (info.feedbackIndex slot)
                    info.languageMode))))))
      { s with tempFrontier := s.tempFrontier + 2 } = _
    rw [mbind_step _ hobj, bind_emit_step, bind_emit_step, bind_emit_step]
    have hl : ((sO.instrs ++
          [Instr.storeAccumulatorInRegister (Reg.reg s.tempFrontier)]) ++
          [Instr.loadLiteralConst name]) ++
          [Instr.storeAccumulatorInRegister (Reg.reg (s.tempFrontier + 1))] =
        sO.instrs ++
          [Instr.storeAccumulatorInRegister (Reg.reg s.tempFrontier),
           Instr.loadLiteralConst name,
           Instr.storeAccumulatorInRegister (Reg.reg (s.tempFrontier + 1))] := by
      simp
    exact congrArg (fun l =>
      ((Except.error LowerError.unimplemented : Except LowerError Unit),
        ({ sO with instrs := l } : GenState))) hl

/-- Counterexample to C2 as stated: lowering the compound named-property
assignment undefined.x += null fails with the unsupported-construct stop,
yet four instructions (the object evaluation, its store, the key constant
load and the key store) have already been emitted into the sink, while the
entry state had an empty sink; so this failing rule does not fail before
emitting anything. -/
theorem c2_counterexample :
    Visit testInfo
      (Ast.assignment true
        (Ast.property (Ast.literal LitValue.undef) false (PropKeyNode.nameKey 7) 0)
        (Ast.literal LitValue.vnull) 0)
      (initialState testInfo) =
    (Except.error LowerError.unimplemented,
      { instrs := [Instr.loadUndefined,
          Instr.storeAccumulatorInRegister (Reg.reg 0),
          Instr.loadLiteralConst 7,
          Instr.storeAccumulatorInRegister (Reg.reg 1)],
        labelBinds := [], nextLabel := 0, tempFrontier := 2, ctrlScopes := [] }) ∧
    (initialState testInfo).instrs.length = 0 ∧
    [Instr.loadUndefined,
      Instr.storeAccumulatorInRegister (Reg.reg 0),
      Instr.loadLiteralConst 7,
      Instr.storeAccumulatorInRegister (Reg.reg 1)].length = 4 :=
  ⟨rfl, rfl, rfl⟩

/-- Closed witness for the amended C2 theorem: its two hypothesis-bearing
conjuncts instantiated concretely, a scoped block with one context local
(fails after emitting EnterBlock) and the compound assignment
undefined.x += null (fails after emitting the four left-hand-side
instructions). -/
theorem c2_witness :
    Visit testInfo (Ast.block true 1 AstList.nilA AstList.nilA)
        (initialState testInfo) =
      (Except.error LowerError.unimplemented,
        { instrs := [Instr.enterBlock], labelBinds := [], nextLabel := 0,
          tempFrontier := 0, ctrlScopes := [] }) ∧
    Visit testInfo
        (Ast.assignment true
          (Ast.property (Ast.literal LitValue.undef) false
            (PropKeyNode.nameKey 7) 0)
          (Ast.literal LitValue.vnull) 0)
        (initialState testInfo) =
      (Except.error LowerError.unimplemented,
        { instrs := [Instr.loadUndefined,
            Instr.storeAccumulatorInRegister (Reg.reg 0),
            Instr.loadLiteralConst 7,
            Instr.storeAccumulatorInRegister (Reg.reg 1)],
          labelBinds := [], nextLabel := 0, tempFrontier := 2,
          ctrlScopes := [] }) :=
  ⟨(c2_failure_emission testInfo).2.2.2.2.1 1 AstList.nilA AstList.nilA
      (initialState testInfo) (by decide),
   (c2_failure_emission testInfo).2.2.2.2.2.2 (Ast.literal LitValue.undef)
      (Ast.literal LitValue.vnull) 7 0 0 (initialState testInfo)
      { instrs := [Instr.loadUndefined], labelBinds := [], nextLabel := 0,
        tempFrontier := 2, ctrlScopes := [] } rfl⟩
